import Mathlib

/-!
# CTEST suite context (`ctest.c`)

A shallow embedding of `ctest.c`: the suite context `struct ctest_ctx`, the
integrity check, allocation and release, the recording function `ctest` and
the three accessors.

Modelling conventions.

* A C `long` is an `Int`; `sz` is `sizeof(long)` in 8-bit bytes, so a long has
  `8 * sz` bits.  ISO C leaves signed overflow undefined; here the result of
  long arithmetic is reduced into the two's-complement range by `toLong`.
* A pointer `ctest_ctx *` is modelled by what it points at: `none` is the null
  pointer, `some c` is storage holding the three fields `c`.
* After `free(ctx)` the caller is left with a stale pointer.  What a later read
  through it finds is not determined by `ctest.c`: the fill that precedes the
  release is a store to storage about to be released, which a compiler may
  drop, and the allocator may overwrite or reuse the storage.  The release
  therefore takes those contents as a parameter, `stale`.
* `stderr` is the list of the texts written by the `fprintf` calls of this
  file, oldest first; the text on the stream is their concatenation.
* Assertions are compiled in (`NDEBUG` is not defined).  A failed `assert`
  ends the run: outcome `fatal`, carrying the state at the moment of the
  assertion; the text `assert` itself prints is not part of `stderr` here.
  `malloc` is taken to succeed.
-/

namespace CTest

/-! ## Machine integers -/

/-- Largest value of a `long` of `sz` bytes. -/
def LONG_MAX (sz : Nat) : Int := 2 ^ (8 * sz - 1) - 1

/-- Smallest value of a `long` of `sz` bytes. -/
def LONG_MIN (sz : Nat) : Int := -(2 ^ (8 * sz - 1))

/-- Reduction of an integer into the two's-complement range of a `long` of
`sz` bytes (conversion to `long`, and the result of wrapping arithmetic). -/
def toLong (sz : Nat) (x : Int) : Int :=
  let m : Int := 2 ^ (8 * sz)
  let r : Int := x % m
  if 2 * r < m then r else r - m

/-- Unsigned value of a sequence of bytes, least significant byte first. -/
def natOfBytes : List Nat → Nat
  | [] => 0
  | b :: bs => b % 256 + 256 * natOfBytes bs

/-- Value of a `long` whose storage holds the bytes `bs`. -/
def longOfBytes (bs : List Nat) : Int :=
  toLong bs.length (natOfBytes bs : Int)

/-! ## The suite context -/

/-- The record `struct ctest_ctx`. -/
structure ctest_ctx where
  magic : Int
  c_pass : Int
  c_fail : Int
deriving DecidableEq

/-- The fill byte `#define BAD_MEM 0x95`. -/
def BAD_MEM : Nat := 0x95

/-- The tag `#define MAGIC 0x74735443`. -/
def MAGIC : Int := 0x74735443

/-- Effect of `memset(ctx, c, sizeof(ctest_ctx))` on the three `long` fields:
every byte of every field is `c`. -/
def memset (sz : Nat) (c : Nat) : ctest_ctx :=
  { magic := longOfBytes (List.replicate sz c)
    c_pass := longOfBytes (List.replicate sz c)
    c_fail := longOfBytes (List.replicate sz c) }

/-- The program state the functions act on: the storage `ctx` points at and
what has been written to `stderr`. -/
structure World where
  ctx : Option ctest_ctx
  stderr : List String
deriving DecidableEq

/-- Result of a call: a normal return with a value, or the abort of a failed
assertion. -/
inductive Outcome (α : Type) where
  | ret (val : α) (w : World)
  | fatal (w : World)
deriving DecidableEq

/-- The four assertions of `ctest_ctx_check`; `true` when all of them hold. -/
def ctest_ctx_check (ctx : Option ctest_ctx) : Bool :=
  match ctx with
  | none => false
  | some c => decide (c.magic = MAGIC) && decide (c.c_pass ≥ 0) && decide (c.c_fail ≥ 0)

/-! ## Formatted output -/

/-- An argument of `fprintf`: a string for `%s`, an unsigned long for `%lu`. -/
inductive Arg where
  | str (v : String)
  | ulong (v : Nat)

/-- Expansion of a format string with the conversions `%s` and `%lu`. -/
def vformat : List Char → List Arg → List Char
  | '%' :: 's' :: rest, Arg.str v :: args => v.data ++ vformat rest args
  | '%' :: 'l' :: 'u' :: rest, Arg.ulong v :: args => (Nat.repr v).data ++ vformat rest args
  | c :: rest, args => c :: vformat rest args
  | [], _ => []

/-- One call `fprintf(stderr, fmt, args...)`. -/
def fprintf (stream : List String) (fmt : String) (args : List Arg) : List String :=
  stream ++ [String.mk (vformat fmt.data args)]

/-! ## Operations -/

/-- The function `ctest_ctx_alloc`. -/
def ctest_ctx_alloc (sz : Nat) (w : World) : Outcome Unit :=
  let ctx : ctest_ctx := memset sz BAD_MEM
  let ctx : ctest_ctx := { ctx with magic := toLong sz MAGIC }
  let ctx : ctest_ctx := { ctx with c_pass := toLong sz 0 }
  let ctx : ctest_ctx := { ctx with c_fail := toLong sz 0 }
  let w1 : World := { w with ctx := some ctx }
  if ctest_ctx_check w1.ctx then Outcome.ret () w1 else Outcome.fatal w1

/-- The accessor `ctest_count_pass`. -/
def ctest_count_pass (w : World) : Outcome Int :=
  match w.ctx with
  | none => Outcome.fatal w
  | some c => if ctest_ctx_check (some c) then Outcome.ret c.c_pass w else Outcome.fatal w

/-- The accessor `ctest_count_fail`. -/
def ctest_count_fail (w : World) : Outcome Int :=
  match w.ctx with
  | none => Outcome.fatal w
  | some c => if ctest_ctx_check (some c) then Outcome.ret c.c_fail w else Outcome.fatal w

/-- The accessor `ctest_count_test`. -/
def ctest_count_test (sz : Nat) (w : World) : Outcome Int :=
  match w.ctx with
  | none => Outcome.fatal w
  | some c =>
    if ctest_ctx_check (some c) then Outcome.ret (toLong sz (c.c_pass + c.c_fail)) w
    else Outcome.fatal w

/-- The library call `free(ctx)`: the storage goes back to the allocator and the
pointer the caller still holds is stale.  `stale` is what a later read through
that pointer finds; it need not be what the storage held at the release. -/
def free (w : World) (stale : ctest_ctx) : World :=
  { w with ctx := some stale }

/-- The function `ctest_ctx_free`; `stale` is what the released storage shows to
a later read (see `free`). -/
def ctest_ctx_free (sz : Nat) (w : World) (stale : ctest_ctx) : Outcome Unit :=
  if ctest_ctx_check w.ctx then
    match ctest_count_test sz w with
    | Outcome.fatal w1 => Outcome.fatal w1
    | Outcome.ret n w1 =>
      let out : List String :=
        if n = 0 then fprintf w1.stderr "Warning: no CTEST unit tests were run.\n" []
        else w1.stderr
      let w2 : World := { ctx := some (memset sz BAD_MEM), stderr := out }
      Outcome.ret () (free w2 stale)
  else Outcome.fatal w

/-- The function `ctest`. -/
def ctest (sz : Nat) (w : World) (name : String) (is_true : Int) (file_name : String)
    (line_number : Nat) : Outcome Unit :=
  match w.ctx with
  | none => Outcome.fatal w
  | some c =>
    if ctest_ctx_check (some c) then
      if is_true ≠ 0 then
        Outcome.ret () { w with ctx := some { c with c_pass := toLong sz (c.c_pass + 1) } }
      else
        Outcome.ret ()
          { ctx := some { c with c_fail := toLong sz (c.c_fail + 1) }
            stderr := fprintf w.stderr "%s:%lu: test failed: %s\n"
              [Arg.str file_name, Arg.ulong line_number, Arg.str name] }
    else Outcome.fatal w

/-! ## A caller making successive `ctest` calls -/

/-- The arguments of one call of `ctest`, the context apart. -/
structure Call where
  name : String
  is_true : Int
  file_name : String
  line_number : Nat

/-- A caller that makes the calls `ks` one after the other on the same
context; a failed assertion ends the run at once. -/
def run_calls (sz : Nat) : List Call → World → Outcome Unit
  | [], w => Outcome.ret () w
  | k :: ks, w =>
    match ctest sz w k.name k.is_true k.file_name k.line_number with
    | Outcome.ret _ w1 => run_calls sz ks w1
    | Outcome.fatal w1 => Outcome.fatal w1

/-! ## Vocabulary of the specification -/

/-- The failure line of the specification: `<file>:<line>: test failed: <name>`
and a newline. -/
def failure_line (file_name : String) (line_number : Nat) (name : String) : String :=
  file_name ++ ":" ++ toString line_number ++ ": test failed: " ++ name ++ "\n"

/-- The warning line of the specification for an empty run. -/
def warning_line : String := "Warning: no CTEST unit tests were run.\n"

/-- Number of calls whose `is_true` is non-zero. -/
def count_true (ks : List Call) : Nat :=
  (ks.filter (fun k => decide (k.is_true ≠ 0))).length

/-- Number of calls whose `is_true` is zero. -/
def count_false (ks : List Call) : Nat :=
  (ks.filter (fun k => decide (k.is_true = 0))).length

/-- Failure lines of the calls whose `is_true` is zero, in call order. -/
def failure_lines (ks : List Call) : List String :=
  (ks.filter (fun k => decide (k.is_true = 0))).map
    (fun k => failure_line k.file_name k.line_number k.name)

/-- Every field of the record holds a value of type `long`. -/
def ctx_in_range (sz : Nat) (c : ctest_ctx) : Prop :=
  (LONG_MIN sz ≤ c.magic ∧ c.magic ≤ LONG_MAX sz) ∧
  (LONG_MIN sz ≤ c.c_pass ∧ c.c_pass ≤ LONG_MAX sz) ∧
  (LONG_MIN sz ≤ c.c_fail ∧ c.c_fail ≤ LONG_MAX sz)

instance (sz : Nat) (c : ctest_ctx) : Decidable (ctx_in_range sz c) := by
  unfold ctx_in_range; infer_instance

/-- The outcome is the abort of a failed assertion. -/
def Outcome.isFatal {α : Type} : Outcome α → Bool
  | Outcome.ret _ _ => false
  | Outcome.fatal _ => true

/-- The state an outcome ends in. -/
def Outcome.world {α : Type} : Outcome α → World
  | Outcome.ret _ w => w
  | Outcome.fatal w => w

/-- The value a call returns, if it returns. -/
def Outcome.value {α : Type} : Outcome α → Option α
  | Outcome.ret v _ => some v
  | Outcome.fatal _ => none

/-- Two calls agree on the truth value of `is_true`; the name, the file name,
the line number and the non-zero value taken by `is_true` are free. -/
def same_truth (a b : Call) : Prop := a.is_true = 0 ↔ b.is_true = 0

instance (a b : Call) : Decidable (same_truth a b) := by
  unfold same_truth; infer_instance

/-! ## Bytes -/

/-- The `n` low-order bytes of `x`, least significant byte first. -/
def bytesOfNat : Nat → Nat → List Nat
  | 0, _ => []
  | n + 1, x => x % 256 :: bytesOfNat n (x / 256)

/-- The bytes held by the storage of a `long` of `sz` bytes with value `x`,
least significant byte first. -/
def bytesOfLong (sz : Nat) (x : Int) : List Nat :=
  bytesOfNat sz (x % 2 ^ (8 * sz)).toNat

/-- Number of bits set among the eight bits of a byte. -/
def bits_set (v : Nat) : Nat :=
  ((List.range 8).filter (fun i => v / 2 ^ i % 2 = 1)).length

/-- Number of bits clear among the eight bits of a byte. -/
def bits_clear (v : Nat) : Nat :=
  ((List.range 8).filter (fun i => v / 2 ^ i % 2 = 0)).length

/-- The value of a byte read as a signed char. -/
def signed_byte (v : Nat) : Int := toLong 1 (v : Int)

/-- The high-order nibble of a byte. -/
def high_nibble (v : Nat) : Nat := v / 16 % 16

/-- The conditions listed in the comment above `#define BAD_MEM 0x95`: eight
bits, four bits set and four clear, prime when unsigned, negative when signed,
the negative of a prime when signed, odd high-order nibble. -/
def fill_conditions (v : Nat) : Prop :=
  v < 256 ∧ bits_set v = 4 ∧ bits_clear v = 4 ∧ Nat.Prime v ∧ signed_byte v < 0 ∧
    Nat.Prime (-(signed_byte v)).toNat ∧ high_nibble v % 2 = 1

/-! ## Concrete inputs -/

/-- The state before any context exists: no storage, nothing written. -/
def fresh : World := { ctx := none, stderr := [] }

/-- A call that records a passing assertion. -/
def pass_call : Call := { name := "a", is_true := 1, file_name := "t.c", line_number := 7 }

/-- A call that records a failing assertion (scenario 3 of the specification). -/
def fail_call : Call := { name := "b", is_true := 0, file_name := "t.c", line_number := 42 }

/-- Three passing and two failing calls, interleaved (scenario 4). -/
def scenario4 : List Call := [pass_call, fail_call, pass_call, pass_call, fail_call]

/-- The calls made by a caller that records `n` passing assertions and then
makes the calls `tail`. -/
def calls_then (n : Nat) (tail : List Call) : List Call :=
  List.replicate n pass_call ++ tail

/-- A passing call with other diagnostic arguments and another non-zero
value of `is_true`. -/
def other_pass : Call :=
  { name := "zz", is_true := -5, file_name := "other.c", line_number := 99 }

/-- A failing call with other diagnostic arguments. -/
def other_fail : Call := { name := "q", is_true := 0, file_name := "u.c", line_number := 1 }

/-! ## Lemmas on machine integers -/

theorem pow_bits (sz : Nat) (h : 0 < sz) : (2 : Int) ^ (8 * sz) = 2 * 2 ^ (8 * sz - 1) := by
  have e : 8 * sz = (8 * sz - 1) + 1 := by omega
  conv_lhs => rw [e]
  rw [pow_succ]; ring

theorem toLong_of_nonneg (sz : Nat) (x : Int) (h0 : 0 ≤ x) (h1 : x ≤ LONG_MAX sz) :
    toLong sz x = x := by
  unfold LONG_MAX at h1
  unfold toLong
  rcases Nat.eq_zero_or_pos sz with hz | hp
  · subst hz
    simp at h1 ⊢
    omega
  · have hm := pow_bits sz hp
    have hpos : (0 : Int) < 2 ^ (8 * sz - 1) := by positivity
    have hx : x % 2 ^ (8 * sz) = x := Int.emod_eq_of_lt h0 (by omega)
    simp only [hx]
    rw [if_pos (by omega)]

theorem LONG_MAX_nonneg (sz : Nat) : 0 ≤ LONG_MAX sz := by
  unfold LONG_MAX
  have hpos : (1 : Int) ≤ 2 ^ (8 * sz - 1) := one_le_pow₀ (by norm_num)
  omega

theorem LONG_MAX_mono {a b : Nat} (h : a ≤ b) : LONG_MAX a ≤ LONG_MAX b := by
  unfold LONG_MAX
  have : (2 : Int) ^ (8 * a - 1) ≤ 2 ^ (8 * b - 1) :=
    pow_le_pow_right₀ (by norm_num) (by omega)
  omega

theorem MAGIC_le_LONG_MAX (sz : Nat) (h : 4 ≤ sz) : MAGIC ≤ LONG_MAX sz := by
  have h4 : MAGIC ≤ LONG_MAX 4 := by decide
  exact le_trans h4 (LONG_MAX_mono h)

theorem toLong_zero (sz : Nat) : toLong sz 0 = 0 :=
  toLong_of_nonneg sz 0 (le_refl 0) (LONG_MAX_nonneg sz)

theorem toLong_MAGIC (sz : Nat) (h : 4 ≤ sz) : toLong sz MAGIC = MAGIC :=
  toLong_of_nonneg sz MAGIC (by decide) (MAGIC_le_LONG_MAX sz h)

/-! ## Lemmas on the operations -/

theorem check_some (c : ctest_ctx) :
    ctest_ctx_check (some c) = true ↔ c.magic = MAGIC ∧ 0 ≤ c.c_pass ∧ 0 ≤ c.c_fail := by
  simp [ctest_ctx_check, and_assoc]

theorem check_none : ctest_ctx_check none = false := rfl

theorem vformat_failure (file_name : String) (line_number : Nat) (name : String) :
    String.mk (vformat "%s:%lu: test failed: %s\n".data
      [Arg.str file_name, Arg.ulong line_number, Arg.str name])
      = failure_line file_name line_number name := by
  apply String.ext
  simp [vformat, failure_line, String.data_append]
  rfl

theorem vformat_warning :
    String.mk (vformat "Warning: no CTEST unit tests were run.\n".data []) = warning_line := by
  decide


theorem fprintf_failure (err : List String) (file_name : String) (line_number : Nat)
    (name : String) :
    fprintf err "%s:%lu: test failed: %s\n"
      [Arg.str file_name, Arg.ulong line_number, Arg.str name]
      = err ++ [failure_line file_name line_number name] := by
  unfold fprintf
  rw [vformat_failure]

theorem fprintf_warning (err : List String) :
    fprintf err "Warning: no CTEST unit tests were run.\n" [] = err ++ [warning_line] := by
  unfold fprintf
  rw [vformat_warning]

theorem ctest_true_step (sz : Nat) (c : ctest_ctx) (err : List String) (k : Call)
    (hv : ctest_ctx_check (some c) = true) (ht : k.is_true ≠ 0) (hp : c.c_pass < LONG_MAX sz) :
    ctest sz ⟨some c, err⟩ k.name k.is_true k.file_name k.line_number
      = Outcome.ret () ⟨some ⟨c.magic, c.c_pass + 1, c.c_fail⟩, err⟩ := by
  have h0 := ((check_some c).1 hv).2.1
  simp only [ctest, hv, if_true, if_pos ht]
  rw [toLong_of_nonneg sz (c.c_pass + 1) (by omega) (by omega)]

theorem ctest_false_step (sz : Nat) (c : ctest_ctx) (err : List String) (k : Call)
    (hv : ctest_ctx_check (some c) = true) (ht : k.is_true = 0) (hp : c.c_fail < LONG_MAX sz) :
    ctest sz ⟨some c, err⟩ k.name k.is_true k.file_name k.line_number
      = Outcome.ret () ⟨some ⟨c.magic, c.c_pass, c.c_fail + 1⟩,
          err ++ [failure_line k.file_name k.line_number k.name]⟩ := by
  have h0 := ((check_some c).1 hv).2.2
  unfold ctest
  simp only [hv, if_true, ht, ne_eq, not_true_eq_false, if_false]
  rw [fprintf_failure, toLong_of_nonneg sz (c.c_fail + 1) (by omega) (by omega)]

theorem count_true_cons (k : Call) (ks : List Call) :
    count_true (k :: ks) = (if k.is_true ≠ 0 then 1 else 0) + count_true ks := by
  unfold count_true
  by_cases h : k.is_true = 0 <;> simp [List.filter_cons, h]
  omega

theorem count_false_cons (k : Call) (ks : List Call) :
    count_false (k :: ks) = (if k.is_true = 0 then 1 else 0) + count_false ks := by
  unfold count_false
  by_cases h : k.is_true = 0 <;> simp [List.filter_cons, h]
  omega

theorem failure_lines_cons (k : Call) (ks : List Call) :
    failure_lines (k :: ks) =
      (if k.is_true = 0 then [failure_line k.file_name k.line_number k.name] else [])
        ++ failure_lines ks := by
  unfold failure_lines
  by_cases h : k.is_true = 0 <;> simp [List.filter_cons, h]

theorem count_true_add_false (ks : List Call) : count_true ks + count_false ks = ks.length := by
  induction ks with
  | nil => rfl
  | cons k ks ih =>
    rw [count_true_cons, count_false_cons, List.length_cons]
    by_cases h : k.is_true = 0 <;> simp [h] <;> omega

theorem run_calls_in_range (sz : Nat) (ks : List Call) :
    ∀ (c : ctest_ctx) (err : List String), ctest_ctx_check (some c) = true →
      c.c_pass + count_true ks ≤ LONG_MAX sz → c.c_fail + count_false ks ≤ LONG_MAX sz →
      run_calls sz ks ⟨some c, err⟩
        = Outcome.ret () ⟨some ⟨c.magic, c.c_pass + count_true ks, c.c_fail + count_false ks⟩,
            err ++ failure_lines ks⟩ := by
  induction ks with
  | nil =>
    intro c err _ _ _
    simp [run_calls, count_true, count_false, failure_lines]
  | cons k ks ih =>
    intro c err hv hp hf
    rw [count_true_cons] at hp
    rw [count_false_cons] at hf
    have hc := (check_some c).1 hv
    by_cases ht : k.is_true = 0
    · simp only [ht, ne_eq, not_true_eq_false, if_false, if_true, Nat.cast_add, Nat.cast_one,
        Nat.cast_zero] at hp hf
      rw [run_calls, ctest_false_step sz c err k hv ht (by omega)]
      simp only []
      rw [ih ⟨c.magic, c.c_pass, c.c_fail + 1⟩ _
        ((check_some _).2 ⟨hc.1, hc.2.1, by simp only []; omega⟩)
        (by simp only []; omega) (by simp only []; omega)]
      simp [count_true_cons, count_false_cons, failure_lines_cons, ht]
      omega
    · simp only [ht, ne_eq, not_false_eq_true, if_false, if_true, Nat.cast_add, Nat.cast_one,
        Nat.cast_zero] at hp hf
      rw [run_calls, ctest_true_step sz c err k hv ht (by omega)]
      simp only []
      rw [ih ⟨c.magic, c.c_pass + 1, c.c_fail⟩ _
        ((check_some _).2 ⟨hc.1, by simp only []; omega, hc.2.2⟩)
        (by simp only []; omega) (by simp only []; omega)]
      simp [count_true_cons, count_false_cons, failure_lines_cons, ht]
      omega

theorem run_calls_append (sz : Nat) (ks js : List Call) :
    ∀ w : World, run_calls sz (ks ++ js) w =
      match run_calls sz ks w with
      | Outcome.ret _ w1 => run_calls sz js w1
      | Outcome.fatal w1 => Outcome.fatal w1 := by
  induction ks with
  | nil => intro w; simp [run_calls]
  | cons k ks ih =>
    intro w
    simp only [List.cons_append, run_calls]
    cases h : ctest sz w k.name k.is_true k.file_name k.line_number with
    | ret v w1 => exact ih w1
    | fatal w1 => rfl


theorem toLong_wrap (sz : Nat) (hs : 0 < sz) (x : Int) (h0 : LONG_MAX sz < x)
    (h1 : x ≤ 2 * LONG_MAX sz + 1) : toLong sz x = x - 2 ^ (8 * sz) := by
  unfold LONG_MAX at h0 h1
  unfold toLong
  have hm := pow_bits sz hs
  have hpos : (0 : Int) < 2 ^ (8 * sz - 1) := by positivity
  have hx : x % 2 ^ (8 * sz) = x := Int.emod_eq_of_lt (by omega) (by omega)
  simp only [hx]
  rw [if_neg (by omega)]

theorem toLong_eq_zero_iff (sz : Nat) (x : Int) (h0 : 0 ≤ x) (h1 : x ≤ 2 * LONG_MAX sz) :
    toLong sz x = 0 ↔ x = 0 := by
  rcases Nat.eq_zero_or_pos sz with hz | hs
  · subst hz
    have : x = 0 := by
      have : LONG_MAX 0 = 0 := by decide
      omega
    subst this
    decide
  · by_cases hx : x ≤ LONG_MAX sz
    · rw [toLong_of_nonneg sz x h0 hx]
    · rw [toLong_wrap sz hs x (by omega) (by omega)]
      have hm := pow_bits sz hs
      unfold LONG_MAX at h1 hx
      constructor <;> intro h <;> omega

theorem toLong_nonneg_iff (sz : Nat) (x : Int) (h0 : 0 ≤ x) (h1 : x ≤ 2 * LONG_MAX sz) :
    0 ≤ toLong sz x ↔ x ≤ LONG_MAX sz := by
  rcases Nat.eq_zero_or_pos sz with hz | hs
  · subst hz
    have : x = 0 := by
      have : LONG_MAX 0 = 0 := by decide
      omega
    subst this
    decide
  · by_cases hx : x ≤ LONG_MAX sz
    · rw [toLong_of_nonneg sz x h0 hx]
      exact ⟨fun _ => hx, fun _ => h0⟩
    · rw [toLong_wrap sz hs x (by omega) (by omega)]
      have hm := pow_bits sz hs
      unfold LONG_MAX at h1 hx ⊢
      constructor <;> intro h <;> omega

theorem natOfBytes_fill (n : Nat) :
    natOfBytes (List.replicate n BAD_MEM) < 256 ^ n ∧
      (0 < n → 256 ^ n ≤ 2 * natOfBytes (List.replicate n BAD_MEM)) := by
  induction n with
  | zero => simp [natOfBytes]
  | succ n ih =>
    have e : natOfBytes (List.replicate (n + 1) BAD_MEM)
        = 149 + 256 * natOfBytes (List.replicate n BAD_MEM) := by
      simp [List.replicate_succ, natOfBytes, BAD_MEM]
    rw [e, pow_succ]
    refine ⟨by omega, fun _ => ?_⟩
    rcases Nat.eq_zero_or_pos n with hz | hp
    · subst hz; simp [natOfBytes]
    · have := ih.2 hp
      omega

theorem fill_neg (sz : Nat) (hs : 0 < sz) : longOfBytes (List.replicate sz BAD_MEM) < 0 := by
  obtain ⟨hlt, hge⟩ := natOfBytes_fill sz
  have hge := hge hs
  unfold longOfBytes
  rw [List.length_replicate]
  have e8 : (2 : Int) ^ (8 * sz) = ((256 ^ sz : Nat) : Int) := by
    rw [pow_mul]; norm_num
  have hm := pow_bits sz hs
  rw [toLong_wrap sz hs _ (by unfold LONG_MAX; omega) (by unfold LONG_MAX; omega)]
  omega

theorem fill_ne_MAGIC (sz : Nat) : longOfBytes (List.replicate sz BAD_MEM) ≠ MAGIC := by
  rcases Nat.eq_zero_or_pos sz with hz | hs
  · subst hz; decide
  · have := fill_neg sz hs
    have : (0 : Int) < MAGIC := by decide
    omega

theorem count_true_replicate (n : Nat) : count_true (List.replicate n pass_call) = n := by
  induction n with
  | zero => rfl
  | succ n ih =>
    rw [List.replicate_succ, count_true_cons, ih]
    simp [pass_call]
    omega

theorem count_false_replicate (n : Nat) : count_false (List.replicate n pass_call) = 0 := by
  induction n with
  | zero => rfl
  | succ n ih =>
    rw [List.replicate_succ, count_false_cons, ih]
    simp [pass_call]

theorem failure_lines_replicate (n : Nat) : failure_lines (List.replicate n pass_call) = [] := by
  induction n with
  | zero => rfl
  | succ n ih =>
    rw [List.replicate_succ, failure_lines_cons, ih]
    simp [pass_call]

theorem alloc_eq (sz : Nat) (h : 4 ≤ sz) (w : World) :
    ctest_ctx_alloc sz w = Outcome.ret () ⟨some ⟨MAGIC, 0, 0⟩, w.stderr⟩ := by
  unfold ctest_ctx_alloc
  simp only [toLong_MAGIC sz h, toLong_zero]
  rw [if_pos (by decide)]

theorem check_fresh : ctest_ctx_check (some ⟨MAGIC, 0, 0⟩) = true := by decide

/-- Running `n` passing calls and then `tail` on a new context amounts to
running `tail` on the context with pass count `n`, while `n` fits a long. -/
theorem run_calls_then (sz : Nat) (n : Nat) (tail : List Call) (err : List String)
    (hn : (n : Int) ≤ LONG_MAX sz) :
    run_calls sz (calls_then n tail) ⟨some ⟨MAGIC, 0, 0⟩, err⟩
      = run_calls sz tail ⟨some ⟨MAGIC, n, 0⟩, err⟩ := by
  unfold calls_then
  rw [run_calls_append,
    run_calls_in_range sz (List.replicate n pass_call) ⟨MAGIC, 0, 0⟩ err check_fresh
      (by rw [count_true_replicate]; simpa using hn)
      (by rw [count_false_replicate]; simpa using LONG_MAX_nonneg sz)]
  simp only [count_true_replicate, count_false_replicate, failure_lines_replicate,
    List.append_nil, zero_add, Nat.cast_zero, add_zero]

theorem count_pass_valid (c : ctest_ctx) (err : List String)
    (hv : ctest_ctx_check (some c) = true) :
    ctest_count_pass ⟨some c, err⟩ = Outcome.ret c.c_pass ⟨some c, err⟩ := by
  simp [ctest_count_pass, hv]

theorem count_fail_valid (c : ctest_ctx) (err : List String)
    (hv : ctest_ctx_check (some c) = true) :
    ctest_count_fail ⟨some c, err⟩ = Outcome.ret c.c_fail ⟨some c, err⟩ := by
  simp [ctest_count_fail, hv]

theorem count_test_valid (sz : Nat) (c : ctest_ctx) (err : List String)
    (hv : ctest_ctx_check (some c) = true) :
    ctest_count_test sz ⟨some c, err⟩
      = Outcome.ret (toLong sz (c.c_pass + c.c_fail)) ⟨some c, err⟩ := by
  simp [ctest_count_test, hv]

theorem count_pass_invalid (w : World) (hv : ctest_ctx_check w.ctx = false) :
    ctest_count_pass w = Outcome.fatal w := by
  unfold ctest_count_pass
  cases h : w.ctx with
  | none => rfl
  | some c => rw [h] at hv; simp [hv]

theorem count_fail_invalid (w : World) (hv : ctest_ctx_check w.ctx = false) :
    ctest_count_fail w = Outcome.fatal w := by
  unfold ctest_count_fail
  cases h : w.ctx with
  | none => rfl
  | some c => rw [h] at hv; simp [hv]

theorem count_test_invalid (sz : Nat) (w : World) (hv : ctest_ctx_check w.ctx = false) :
    ctest_count_test sz w = Outcome.fatal w := by
  unfold ctest_count_test
  cases h : w.ctx with
  | none => rfl
  | some c => rw [h] at hv; simp [hv]

theorem ctest_invalid (sz : Nat) (w : World) (name : String) (is_true : Int)
    (file_name : String) (line_number : Nat) (hv : ctest_ctx_check w.ctx = false) :
    ctest sz w name is_true file_name line_number = Outcome.fatal w := by
  unfold ctest
  cases h : w.ctx with
  | none => rfl
  | some c => rw [h] at hv; simp [hv]

theorem free_invalid (sz : Nat) (w : World) (stale : ctest_ctx)
    (hv : ctest_ctx_check w.ctx = false) :
    ctest_ctx_free sz w stale = Outcome.fatal w := by
  simp [ctest_ctx_free, hv]

theorem free_valid (sz : Nat) (c : ctest_ctx) (err : List String) (stale : ctest_ctx)
    (hv : ctest_ctx_check (some c) = true) :
    ctest_ctx_free sz ⟨some c, err⟩ stale = Outcome.ret ()
      ⟨some stale,
        if toLong sz (c.c_pass + c.c_fail) = 0 then err ++ [warning_line] else err⟩ := by
  unfold ctest_ctx_free
  simp only [hv, if_true, count_test_valid sz c err hv, fprintf_warning, free]

theorem ctest_valid (sz : Nat) (c : ctest_ctx) (err : List String) (name : String)
    (is_true : Int) (file_name : String) (line_number : Nat)
    (hv : ctest_ctx_check (some c) = true) :
    ctest sz ⟨some c, err⟩ name is_true file_name line_number =
      if is_true ≠ 0 then
        Outcome.ret () ⟨some ⟨c.magic, toLong sz (c.c_pass + 1), c.c_fail⟩, err⟩
      else
        Outcome.ret () ⟨some ⟨c.magic, c.c_pass, toLong sz (c.c_fail + 1)⟩,
          err ++ [failure_line file_name line_number name]⟩ := by
  unfold ctest
  simp only [hv, if_true, fprintf_failure]


theorem count_true_calls_then (n : Nat) (tail : List Call) :
    count_true (calls_then n tail) = n + count_true tail := by
  have h := count_true_replicate n
  unfold count_true at h ⊢
  unfold calls_then
  rw [List.filter_append, List.length_append, h]

theorem count_false_calls_then (n : Nat) (tail : List Call) :
    count_false (calls_then n tail) = count_false tail := by
  have h := count_false_replicate n
  unfold count_false at h ⊢
  unfold calls_then
  rw [List.filter_append, List.length_append, h, zero_add]

theorem length_calls_then (n : Nat) (tail : List Call) :
    (calls_then n tail).length = n + tail.length := by
  simp [calls_then]

theorem isFatal_iff {α : Type} (o : Outcome α) (w : World) (b : Bool)
    (h1 : b = false → o = Outcome.fatal w) (h2 : b = true → o.isFatal = false) :
    o.isFatal = true ↔ b = false := by
  cases b with
  | false => simp [h1 rfl, Outcome.isFatal]
  | true => simp [h2 rfl]

theorem valid_some (ctx : Option ctest_ctx) (hv : ctest_ctx_check ctx = true) :
    ∃ c, ctx = some c := by
  cases ctx with
  | none => simp [ctest_ctx_check] at hv
  | some c => exact ⟨c, rfl⟩

theorem fill_conditions_BAD_MEM : fill_conditions BAD_MEM := by
  refine ⟨by decide, by decide, by decide, ?_, by decide, ?_, by decide⟩
  · unfold BAD_MEM; norm_num
  · have e : (-(signed_byte BAD_MEM)).toNat = 107 := by decide
    rw [e]; norm_num

set_option maxRecDepth 100000 in
theorem cheap_candidates : ∀ v : Fin 256,
    (bits_set v.val = 4 ∧ signed_byte v.val < 0 ∧ high_nibble v.val % 2 = 1) →
    v.val ∈ [147, 149, 150, 153, 154, 156, 177, 178, 180, 184, 209, 210, 212, 216, 240] := by
  decide

theorem fill_unique (v : Nat) (h : fill_conditions v) : v = BAD_MEM := by
  obtain ⟨h8, hs, _, hp, hn, _, ho⟩ := h
  have hm := cheap_candidates ⟨v, h8⟩ ⟨hs, hn, ho⟩
  simp only [List.mem_cons, List.mem_singleton, List.not_mem_nil, or_false] at hm
  rcases hm with h | h | h | h | h | h | h | h | h | h | h | h | h | h | h <;>
    first
    | exact h
    | (exfalso; rw [h] at hp; norm_num at hp)

/-! ## Claims -/

/-- C1 (as amended): for every sequence of `ctest` calls on a context returned
by `ctest_ctx_alloc`, short enough that neither counter exceeds `LONG_MAX`,
every call returns, `ctest_count_pass` returns the number of calls with non-zero
`is_true`, `ctest_count_fail` the number with zero `is_true`, and
`ctest_count_test` returns the length of the sequence reduced into the range of
a long, which is the length itself when the length does not exceed `LONG_MAX`. -/
theorem C1_counts_after_calls (sz : Nat) (w : World) (ks : List Call) (h4 : 4 ≤ sz)
    (hp : (count_true ks : Int) ≤ LONG_MAX sz) (hf : (count_false ks : Int) ≤ LONG_MAX sz) :
    ∃ w0 w1, ctest_ctx_alloc sz w = Outcome.ret () w0 ∧
      run_calls sz ks w0 = Outcome.ret () w1 ∧
      ctest_count_pass w1 = Outcome.ret (count_true ks : Int) w1 ∧
      ctest_count_fail w1 = Outcome.ret (count_false ks : Int) w1 ∧
      ctest_count_test sz w1 = Outcome.ret (toLong sz ks.length) w1 ∧
      ((ks.length : Int) ≤ LONG_MAX sz →
        ctest_count_test sz w1 = Outcome.ret (ks.length : Int) w1) := by
  have hr := run_calls_in_range sz ks ⟨MAGIC, 0, 0⟩ w.stderr check_fresh
    (by simpa using hp) (by simpa using hf)
  simp only [zero_add] at hr
  have hv : ctest_ctx_check (some ⟨MAGIC, (count_true ks : Int), (count_false ks : Int)⟩) = true :=
    (check_some _).2 ⟨rfl, by simp, by simp⟩
  have hlen : ((count_true ks : Int) + (count_false ks : Int)) = (ks.length : Int) := by
    exact_mod_cast count_true_add_false ks
  refine ⟨_, _, alloc_eq sz h4 w, hr, count_pass_valid _ _ hv, count_fail_valid _ _ hv, ?_, ?_⟩
  · rw [count_test_valid sz _ _ hv]
    simp only [hlen]
  · intro hl
    rw [count_test_valid sz _ _ hv]
    simp only [hlen]
    rw [toLong_of_nonneg sz _ (by simp) hl]

/-- Witness of C1: three passing and two failing calls, 8-byte long. -/
theorem C1_counts_after_calls_witness :
    4 ≤ 8 ∧ (count_true scenario4 : Int) ≤ LONG_MAX 8 ∧
      (count_false scenario4 : Int) ≤ LONG_MAX 8 ∧
      count_true scenario4 = 3 ∧ count_false scenario4 = 2 ∧ scenario4.length = 5 ∧
      ∃ w0 w1, ctest_ctx_alloc 8 fresh = Outcome.ret () w0 ∧
        run_calls 8 scenario4 w0 = Outcome.ret () w1 ∧
        ctest_count_pass w1 = Outcome.ret (count_true scenario4 : Int) w1 ∧
        ctest_count_fail w1 = Outcome.ret (count_false scenario4 : Int) w1 ∧
        ctest_count_test 8 w1 = Outcome.ret (toLong 8 scenario4.length) w1 ∧
        ((scenario4.length : Int) ≤ LONG_MAX 8 →
          ctest_count_test 8 w1 = Outcome.ret (scenario4.length : Int) w1) :=
  ⟨by decide, by decide, by decide, by decide, by decide, by decide,
    C1_counts_after_calls 8 fresh scenario4 (by decide) (by decide) (by decide)⟩

/-- C1 fails as stated: with a 4-byte long, 2147483647 passing calls and one
failing call on a new context keep both counters within the range of a long
(2147483647 and 1), yet `ctest_count_test` returns -2147483648, not the length
2147483648 of the sequence. -/
theorem C1_counterexample :
    (count_true (calls_then 2147483647 [fail_call]) : Int) ≤ LONG_MAX 4 ∧
    (count_false (calls_then 2147483647 [fail_call]) : Int) ≤ LONG_MAX 4 ∧
    (calls_then 2147483647 [fail_call]).length = 2147483648 ∧
    ctest_ctx_alloc 4 fresh = Outcome.ret () ⟨some ⟨MAGIC, 0, 0⟩, []⟩ ∧
    run_calls 4 (calls_then 2147483647 [fail_call]) ⟨some ⟨MAGIC, 0, 0⟩, []⟩
      = Outcome.ret () ⟨some ⟨MAGIC, 2147483647, 1⟩, ["t.c:42: test failed: b\n"]⟩ ∧
    ctest_count_pass ⟨some ⟨MAGIC, 2147483647, 1⟩, ["t.c:42: test failed: b\n"]⟩
      = Outcome.ret 2147483647 ⟨some ⟨MAGIC, 2147483647, 1⟩, ["t.c:42: test failed: b\n"]⟩ ∧
    ctest_count_fail ⟨some ⟨MAGIC, 2147483647, 1⟩, ["t.c:42: test failed: b\n"]⟩
      = Outcome.ret 1 ⟨some ⟨MAGIC, 2147483647, 1⟩, ["t.c:42: test failed: b\n"]⟩ ∧
    ctest_count_test 4 ⟨some ⟨MAGIC, 2147483647, 1⟩, ["t.c:42: test failed: b\n"]⟩
      = Outcome.ret (-2147483648) ⟨some ⟨MAGIC, 2147483647, 1⟩, ["t.c:42: test failed: b\n"]⟩ := by
  refine ⟨?_, ?_, ?_, by decide, ?_, by decide, by decide, by decide⟩
  · rw [count_true_calls_then]; decide
  · rw [count_false_calls_then]; decide
  · rw [length_calls_then]; rfl
  · rw [run_calls_then 4 2147483647 [fail_call] [] (by decide)]
    decide


/-- C2 (as amended): for every valid context and every sequence of `ctest`
calls after which the total pass + fail does not exceed `LONG_MAX`, every call
returns and, at that point, the three accessors return and
`ctest_count_test` equals `ctest_count_pass + ctest_count_fail`. -/
theorem C2_total_is_sum (sz : Nat) (c : ctest_ctx) (err : List String) (ks : List Call)
    (hv : ctest_ctx_check (some c) = true)
    (hs : c.c_pass + c.c_fail + (ks.length : Int) ≤ LONG_MAX sz) :
    ∃ w1 p f t, run_calls sz ks ⟨some c, err⟩ = Outcome.ret () w1 ∧
      ctest_count_pass w1 = Outcome.ret p w1 ∧
      ctest_count_fail w1 = Outcome.ret f w1 ∧
      ctest_count_test sz w1 = Outcome.ret t w1 ∧
      t = p + f := by
  have hc := (check_some c).1 hv
  have hlen : ((count_true ks : Int) + (count_false ks : Int)) = (ks.length : Int) := by
    exact_mod_cast count_true_add_false ks
  have ht : (0 : Int) ≤ count_true ks := by simp
  have hf : (0 : Int) ≤ count_false ks := by simp
  have hr := run_calls_in_range sz ks c err hv (by omega) (by omega)
  have hv1 : ctest_ctx_check
      (some ⟨c.magic, c.c_pass + count_true ks, c.c_fail + count_false ks⟩) = true :=
    (check_some _).2 ⟨hc.1, by simp only []; omega, by simp only []; omega⟩
  refine ⟨_, _, _, _, hr, count_pass_valid _ _ hv1, count_fail_valid _ _ hv1,
    count_test_valid sz _ _ hv1, ?_⟩
  simp only []
  exact toLong_of_nonneg sz _ (by omega) (by omega)

/-- Witness of C2: scenario 4 on a new context, 8-byte long. -/
theorem C2_total_is_sum_witness :
    ctest_ctx_check (some ⟨MAGIC, 0, 0⟩) = true ∧
      (0 : Int) + 0 + (scenario4.length : Int) ≤ LONG_MAX 8 ∧
      ∃ w1 p f t, run_calls 8 scenario4 ⟨some ⟨MAGIC, 0, 0⟩, []⟩ = Outcome.ret () w1 ∧
        ctest_count_pass w1 = Outcome.ret p w1 ∧
        ctest_count_fail w1 = Outcome.ret f w1 ∧
        ctest_count_test 8 w1 = Outcome.ret t w1 ∧
        t = p + f :=
  ⟨by decide, by decide,
    C2_total_is_sum 8 ⟨MAGIC, 0, 0⟩ [] scenario4 (by decide) (by decide)⟩

/-- C2 fails as stated, 4-byte long.  After 2147483647 passing calls and one
failing call on a new context the context is valid, the pass count is
2147483647 and the fail count 1, and `ctest_count_test` returns -2147483648,
which is not their sum.  After 2147483648 passing calls, all of which return,
`ctest_count_test` does not return at all: it takes the fatal path. -/
theorem C2_counterexample :
    (run_calls 4 (calls_then 2147483647 [fail_call]) ⟨some ⟨MAGIC, 0, 0⟩, []⟩
        = Outcome.ret () ⟨some ⟨MAGIC, 2147483647, 1⟩, ["t.c:42: test failed: b\n"]⟩ ∧
      ctest_ctx_check (some ⟨MAGIC, 2147483647, 1⟩) = true ∧
      ctest_count_pass ⟨some ⟨MAGIC, 2147483647, 1⟩, ["t.c:42: test failed: b\n"]⟩
        = Outcome.ret 2147483647 ⟨some ⟨MAGIC, 2147483647, 1⟩, ["t.c:42: test failed: b\n"]⟩ ∧
      ctest_count_fail ⟨some ⟨MAGIC, 2147483647, 1⟩, ["t.c:42: test failed: b\n"]⟩
        = Outcome.ret 1 ⟨some ⟨MAGIC, 2147483647, 1⟩, ["t.c:42: test failed: b\n"]⟩ ∧
      ctest_count_test 4 ⟨some ⟨MAGIC, 2147483647, 1⟩, ["t.c:42: test failed: b\n"]⟩
        = Outcome.ret (-2147483648)
            ⟨some ⟨MAGIC, 2147483647, 1⟩, ["t.c:42: test failed: b\n"]⟩ ∧
      (-2147483648 : Int) ≠ 2147483647 + 1) ∧
    (run_calls 4 (calls_then 2147483647 [pass_call]) ⟨some ⟨MAGIC, 0, 0⟩, []⟩
        = Outcome.ret () ⟨some ⟨MAGIC, -2147483648, 0⟩, []⟩ ∧
      ctest_count_test 4 ⟨some ⟨MAGIC, -2147483648, 0⟩, []⟩
        = Outcome.fatal ⟨some ⟨MAGIC, -2147483648, 0⟩, []⟩) := by
  refine ⟨⟨?_, by decide, by decide, by decide, by decide, by decide⟩, ?_, by decide⟩
  · rw [run_calls_then 4 2147483647 [fail_call] [] (by decide)]
    decide
  · rw [run_calls_then 4 2147483647 [pass_call] [] (by decide)]
    decide

/-- C3 (as amended): on a valid context a `ctest` call returns, leaves the tag
unchanged, and touches one counter only: with non-zero `is_true` the fail count
is unchanged and the pass count grows by exactly 1 when it is below `LONG_MAX`;
with zero `is_true` the pass count is unchanged and the fail count grows by
exactly 1 when it is below `LONG_MAX`. -/
theorem C3_one_counter_changes (sz : Nat) (c : ctest_ctx) (err : List String) (name : String)
    (is_true : Int) (file_name : String) (line_number : Nat)
    (hv : ctest_ctx_check (some c) = true) :
    ∃ c1 err1, ctest sz ⟨some c, err⟩ name is_true file_name line_number
        = Outcome.ret () ⟨some c1, err1⟩ ∧
      c1.magic = c.magic ∧
      (is_true ≠ 0 → c1.c_fail = c.c_fail ∧
        (c.c_pass < LONG_MAX sz → c1.c_pass = c.c_pass + 1)) ∧
      (is_true = 0 → c1.c_pass = c.c_pass ∧
        (c.c_fail < LONG_MAX sz → c1.c_fail = c.c_fail + 1)) := by
  have hc := (check_some c).1 hv
  rw [ctest_valid sz c err name is_true file_name line_number hv]
  by_cases ht : is_true = 0
  · rw [if_neg (by simpa using ht)]
    refine ⟨_, _, rfl, rfl, fun h => absurd ht h, fun _ => ⟨rfl, fun hlt => ?_⟩⟩
    exact toLong_of_nonneg sz _ (by omega) (by omega)
  · rw [if_pos ht]
    refine ⟨_, _, rfl, rfl, fun _ => ⟨rfl, fun hlt => ?_⟩, fun h => absurd h ht⟩
    exact toLong_of_nonneg sz _ (by omega) (by omega)

/-- Witness of C3: a passing call on a context with counts 3 and 2. -/
theorem C3_one_counter_changes_witness :
    ctest_ctx_check (some ⟨MAGIC, 3, 2⟩) = true ∧
      ∃ c1 err1, ctest 8 ⟨some ⟨MAGIC, 3, 2⟩, []⟩ "a" 1 "t.c" 7
          = Outcome.ret () ⟨some c1, err1⟩ ∧
        c1.magic = MAGIC ∧
        ((1 : Int) ≠ 0 → c1.c_fail = 2 ∧ ((3 : Int) < LONG_MAX 8 → c1.c_pass = 3 + 1)) ∧
        ((1 : Int) = 0 → c1.c_pass = 3 ∧ ((2 : Int) < LONG_MAX 8 → c1.c_fail = 2 + 1)) :=
  ⟨by decide, C3_one_counter_changes 8 ⟨MAGIC, 3, 2⟩ [] "a" 1 "t.c" 7 (by decide)⟩

/-- C3 fails as stated, 4-byte long: 2147483647 passing calls on a new context
leave a valid context with pass count 2147483647, and one more passing call
returns with pass count -2147483648, which is not the old count plus 1. -/
theorem C3_counterexample :
    run_calls 4 (calls_then 2147483647 []) ⟨some ⟨MAGIC, 0, 0⟩, []⟩
        = Outcome.ret () ⟨some ⟨MAGIC, 2147483647, 0⟩, []⟩ ∧
      ctest_ctx_check (some ⟨MAGIC, 2147483647, 0⟩) = true ∧
      ctest 4 ⟨some ⟨MAGIC, 2147483647, 0⟩, []⟩ "a" 1 "t.c" 7
        = Outcome.ret () ⟨some ⟨MAGIC, -2147483648, 0⟩, []⟩ ∧
      (-2147483648 : Int) ≠ 2147483647 + 1 := by
  refine ⟨?_, by decide, by decide, by decide⟩
  rw [run_calls_then 4 2147483647 [] [] (by decide)]
  decide


/-- C4: on a valid context a `ctest` call returns; with `is_true` zero it
appends to the diagnostic stream exactly the one line
`file_name ++ ":" ++ decimal line_number ++ ": test failed: " ++ name ++ "\n"`,
and with `is_true` non-zero it appends nothing. -/
theorem C4_failure_line (sz : Nat) (c : ctest_ctx) (err : List String) (name : String)
    (is_true : Int) (file_name : String) (line_number : Nat)
    (hv : ctest_ctx_check (some c) = true) :
    (ctest sz ⟨some c, err⟩ name is_true file_name line_number).isFatal = false ∧
    (is_true = 0 →
      (ctest sz ⟨some c, err⟩ name is_true file_name line_number).world.stderr
        = err ++ [file_name ++ ":" ++ Nat.repr line_number ++ ": test failed: " ++ name
            ++ "\n"]) ∧
    (is_true ≠ 0 →
      (ctest sz ⟨some c, err⟩ name is_true file_name line_number).world.stderr = err) := by
  rw [ctest_valid sz c err name is_true file_name line_number hv]
  by_cases ht : is_true = 0
  · rw [if_neg (by simpa using ht)]
    exact ⟨rfl, fun _ => rfl, fun h => absurd ht h⟩
  · rw [if_pos ht]
    exact ⟨rfl, fun h => absurd h ht, fun _ => rfl⟩

/-- Witness of C4: name "b", file "t.c", line 42 on a new context. -/
theorem C4_failure_line_witness :
    ctest_ctx_check (some ⟨MAGIC, 0, 0⟩) = true ∧
      (ctest 8 ⟨some ⟨MAGIC, 0, 0⟩, []⟩ "b" 0 "t.c" 42).world.stderr
        = ["t.c:42: test failed: b\n"] :=
  ⟨by decide, (C4_failure_line 8 ⟨MAGIC, 0, 0⟩ [] "b" 0 "t.c" 42 (by decide)).2.1 rfl⟩

/-- C5 (as amended): for every sequence of `ctest` calls on a new context,
short enough that neither counter exceeds `LONG_MAX`, every call returns and the
diagnostic stream has gained exactly the failure lines of the calls whose
`is_true` was zero, one per such call and in call order; their number is the
value `ctest_count_fail` returns. -/
theorem C5_failure_lines_in_order (sz : Nat) (w : World) (ks : List Call) (h4 : 4 ≤ sz)
    (hp : (count_true ks : Int) ≤ LONG_MAX sz) (hf : (count_false ks : Int) ≤ LONG_MAX sz) :
    ∃ w0 w1, ctest_ctx_alloc sz w = Outcome.ret () w0 ∧
      run_calls sz ks w0 = Outcome.ret () w1 ∧
      w1.stderr = w.stderr ++
        (ks.filter (fun k => decide (k.is_true = 0))).map
          (fun k => k.file_name ++ ":" ++ Nat.repr k.line_number ++ ": test failed: "
            ++ k.name ++ "\n") ∧
      ctest_count_fail w1 = Outcome.ret
        (((ks.filter (fun k => decide (k.is_true = 0))).map
          (fun k => k.file_name ++ ":" ++ Nat.repr k.line_number ++ ": test failed: "
            ++ k.name ++ "\n")).length : Int) w1 := by
  have hr := run_calls_in_range sz ks ⟨MAGIC, 0, 0⟩ w.stderr check_fresh
    (by simpa using hp) (by simpa using hf)
  simp only [zero_add] at hr
  have hv : ctest_ctx_check (some ⟨MAGIC, (count_true ks : Int), (count_false ks : Int)⟩) = true :=
    (check_some _).2 ⟨rfl, by simp, by simp⟩
  refine ⟨_, _, alloc_eq sz h4 w, hr, rfl, ?_⟩
  rw [count_fail_valid _ _ hv, List.length_map]
  rfl

/-- Witness of C5: scenario 4 on a new context, 8-byte long. -/
theorem C5_failure_lines_in_order_witness :
    4 ≤ 8 ∧ (count_true scenario4 : Int) ≤ LONG_MAX 8 ∧
      (count_false scenario4 : Int) ≤ LONG_MAX 8 ∧
      ∃ w0 w1, ctest_ctx_alloc 8 fresh = Outcome.ret () w0 ∧
        run_calls 8 scenario4 w0 = Outcome.ret () w1 ∧
        w1.stderr = fresh.stderr ++
          (scenario4.filter (fun k => decide (k.is_true = 0))).map
            (fun k => k.file_name ++ ":" ++ Nat.repr k.line_number ++ ": test failed: "
              ++ k.name ++ "\n") ∧
        ctest_count_fail w1 = Outcome.ret
          (((scenario4.filter (fun k => decide (k.is_true = 0))).map
            (fun k => k.file_name ++ ":" ++ Nat.repr k.line_number ++ ": test failed: "
              ++ k.name ++ "\n")).length : Int) w1 :=
  ⟨by decide, by decide, by decide,
    C5_failure_lines_in_order 8 fresh scenario4 (by decide) (by decide) (by decide)⟩

/-- C5 fails as stated, 4-byte long: of 2147483648 passing calls followed by
one failing call on a new context, the last passing call wraps the pass count,
so the failing call takes the fatal path and writes nothing; the stream is
empty although one call had `is_true` zero. -/
theorem C5_counterexample :
    ctest_ctx_alloc 4 fresh = Outcome.ret () ⟨some ⟨MAGIC, 0, 0⟩, []⟩ ∧
      run_calls 4 (calls_then 2147483647 [pass_call, fail_call]) ⟨some ⟨MAGIC, 0, 0⟩, []⟩
        = Outcome.fatal ⟨some ⟨MAGIC, -2147483648, 0⟩, []⟩ ∧
      count_false (calls_then 2147483647 [pass_call, fail_call]) = 1 ∧
      failure_lines (calls_then 2147483647 [pass_call, fail_call])
        = ["t.c:42: test failed: b\n"] := by
  refine ⟨by decide, ?_, ?_, ?_⟩
  · rw [run_calls_then 4 2147483647 [pass_call, fail_call] [] (by decide)]
    decide
  · rw [count_false_calls_then]; decide
  · unfold calls_then failure_lines
    have h := failure_lines_replicate 2147483647
    unfold failure_lines at h
    rw [List.filter_append, List.map_append, h]
    decide


/-- C6: `ctest_ctx_alloc` returns a context that passes the integrity check
(tag `MAGIC`, both counts non-negative), on which the three accessors return 0,
and none of whose fields holds the value left by the fill. -/
theorem C6_alloc_valid (sz : Nat) (w : World) (h4 : 4 ≤ sz) :
    ∃ c, ctest_ctx_alloc sz w = Outcome.ret () ⟨some c, w.stderr⟩ ∧
      ctest_ctx_check (some c) = true ∧
      c.magic = MAGIC ∧ 0 ≤ c.c_pass ∧ 0 ≤ c.c_fail ∧
      ctest_count_pass ⟨some c, w.stderr⟩ = Outcome.ret 0 ⟨some c, w.stderr⟩ ∧
      ctest_count_fail ⟨some c, w.stderr⟩ = Outcome.ret 0 ⟨some c, w.stderr⟩ ∧
      ctest_count_test sz ⟨some c, w.stderr⟩ = Outcome.ret 0 ⟨some c, w.stderr⟩ ∧
      c.magic ≠ (memset sz BAD_MEM).magic ∧
      c.c_pass ≠ (memset sz BAD_MEM).c_pass ∧
      c.c_fail ≠ (memset sz BAD_MEM).c_fail := by
  have hneg := fill_neg sz (by omega)
  refine ⟨⟨MAGIC, 0, 0⟩, alloc_eq sz h4 w, check_fresh, rfl, le_refl _, le_refl _,
    count_pass_valid _ _ check_fresh, count_fail_valid _ _ check_fresh, ?_, ?_, ?_, ?_⟩
  · rw [count_test_valid sz _ _ check_fresh]
    simp only [add_zero, toLong_zero]
  · exact fun h => fill_ne_MAGIC sz h.symm
  · simp only [memset]; omega
  · simp only [memset]; omega

/-- Witness of C6: 8-byte long, starting from the state with no context. -/
theorem C6_alloc_valid_witness :
    4 ≤ 8 ∧
    ∃ c, ctest_ctx_alloc 8 fresh = Outcome.ret () ⟨some c, fresh.stderr⟩ ∧
      ctest_ctx_check (some c) = true ∧
      c.magic = MAGIC ∧ 0 ≤ c.c_pass ∧ 0 ≤ c.c_fail ∧
      ctest_count_pass ⟨some c, fresh.stderr⟩ = Outcome.ret 0 ⟨some c, fresh.stderr⟩ ∧
      ctest_count_fail ⟨some c, fresh.stderr⟩ = Outcome.ret 0 ⟨some c, fresh.stderr⟩ ∧
      ctest_count_test 8 ⟨some c, fresh.stderr⟩ = Outcome.ret 0 ⟨some c, fresh.stderr⟩ ∧
      c.magic ≠ (memset 8 BAD_MEM).magic ∧
      c.c_pass ≠ (memset 8 BAD_MEM).c_pass ∧
      c.c_fail ≠ (memset 8 BAD_MEM).c_fail :=
  ⟨by decide, C6_alloc_valid 8 fresh (by decide)⟩

/-- C7 (as amended): on a valid context whose fields are longs the three
accessors return; `ctest_count_pass` and `ctest_count_fail` return non-negative
integers, and `ctest_count_test` returns a non-negative integer exactly when
pass + fail does not exceed `LONG_MAX`. -/
theorem C7_counts_nonneg (sz : Nat) (c : ctest_ctx) (err : List String)
    (hv : ctest_ctx_check (some c) = true) (hr : ctx_in_range sz c) :
    ∃ p f t, ctest_count_pass ⟨some c, err⟩ = Outcome.ret p ⟨some c, err⟩ ∧
      ctest_count_fail ⟨some c, err⟩ = Outcome.ret f ⟨some c, err⟩ ∧
      ctest_count_test sz ⟨some c, err⟩ = Outcome.ret t ⟨some c, err⟩ ∧
      0 ≤ p ∧ 0 ≤ f ∧ (0 ≤ t ↔ p + f ≤ LONG_MAX sz) := by
  have hc := (check_some c).1 hv
  obtain ⟨_, ⟨_, hp⟩, ⟨_, hf⟩⟩ := hr
  exact ⟨_, _, _, count_pass_valid _ _ hv, count_fail_valid _ _ hv,
    count_test_valid sz _ _ hv, hc.2.1, hc.2.2,
    toLong_nonneg_iff sz _ (by omega) (by omega)⟩

/-- Witness of C7: counts 3 and 2, 8-byte long. -/
theorem C7_counts_nonneg_witness :
    ctest_ctx_check (some ⟨MAGIC, 3, 2⟩) = true ∧ ctx_in_range 8 ⟨MAGIC, 3, 2⟩ ∧
    ∃ p f t, ctest_count_pass ⟨some ⟨MAGIC, 3, 2⟩, []⟩ = Outcome.ret p ⟨some ⟨MAGIC, 3, 2⟩, []⟩ ∧
      ctest_count_fail ⟨some ⟨MAGIC, 3, 2⟩, []⟩ = Outcome.ret f ⟨some ⟨MAGIC, 3, 2⟩, []⟩ ∧
      ctest_count_test 8 ⟨some ⟨MAGIC, 3, 2⟩, []⟩ = Outcome.ret t ⟨some ⟨MAGIC, 3, 2⟩, []⟩ ∧
      0 ≤ p ∧ 0 ≤ f ∧ (0 ≤ t ↔ p + f ≤ LONG_MAX 8) :=
  ⟨by decide, by decide, C7_counts_nonneg 8 ⟨MAGIC, 3, 2⟩ [] (by decide) (by decide)⟩

/-- C7 fails as stated, 4-byte long: the context reached from a new one by
2147483647 passing calls and one failing call is valid, with fields in the
range of a long, and `ctest_count_test` returns the negative -2147483648. -/
theorem C7_counterexample :
    run_calls 4 (calls_then 2147483647 [fail_call]) ⟨some ⟨MAGIC, 0, 0⟩, []⟩
        = Outcome.ret () ⟨some ⟨MAGIC, 2147483647, 1⟩, ["t.c:42: test failed: b\n"]⟩ ∧
      ctest_ctx_check (some ⟨MAGIC, 2147483647, 1⟩) = true ∧
      ctx_in_range 4 ⟨MAGIC, 2147483647, 1⟩ ∧
      ctest_count_test 4 ⟨some ⟨MAGIC, 2147483647, 1⟩, ["t.c:42: test failed: b\n"]⟩
        = Outcome.ret (-2147483648)
            ⟨some ⟨MAGIC, 2147483647, 1⟩, ["t.c:42: test failed: b\n"]⟩ ∧
      ¬ (0 : Int) ≤ -2147483648 := by
  refine ⟨?_, by decide, by decide, by decide, by decide⟩
  rw [run_calls_then 4 2147483647 [fail_call] [] (by decide)]
  decide

/-- C8: each of `ctest`, `ctest_count_pass`, `ctest_count_fail`,
`ctest_count_test` and `ctest_ctx_free` takes the fatal path exactly when the
context fails the check, that is when it is null, or its tag differs from
`MAGIC`, or its pass count or fail count is negative; on the fatal path the
state is the state before the call: no field changed, nothing written. -/
theorem C8_fatal_iff_invalid (sz : Nat) (w : World) (name : String) (is_true : Int)
    (file_name : String) (line_number : Nat) (stale : ctest_ctx) :
    (ctest_ctx_check w.ctx = false ↔
      (w.ctx = none ∨ ∃ c, w.ctx = some c ∧ (c.magic ≠ MAGIC ∨ c.c_pass < 0 ∨ c.c_fail < 0))) ∧
    ((ctest sz w name is_true file_name line_number).isFatal = true
        ↔ ctest_ctx_check w.ctx = false) ∧
    ((ctest_count_pass w).isFatal = true ↔ ctest_ctx_check w.ctx = false) ∧
    ((ctest_count_fail w).isFatal = true ↔ ctest_ctx_check w.ctx = false) ∧
    ((ctest_count_test sz w).isFatal = true ↔ ctest_ctx_check w.ctx = false) ∧
    ((ctest_ctx_free sz w stale).isFatal = true ↔ ctest_ctx_check w.ctx = false) ∧
    (ctest_ctx_check w.ctx = false →
      ctest sz w name is_true file_name line_number = Outcome.fatal w ∧
      ctest_count_pass w = Outcome.fatal w ∧
      ctest_count_fail w = Outcome.fatal w ∧
      ctest_count_test sz w = Outcome.fatal w ∧
      ctest_ctx_free sz w stale = Outcome.fatal w) := by
  obtain ⟨ctx, err⟩ := w
  refine ⟨?_, ?_, ?_, ?_, ?_, ?_, fun hv => ⟨ctest_invalid sz _ _ _ _ _ hv,
    count_pass_invalid _ hv, count_fail_invalid _ hv, count_test_invalid sz _ hv,
    free_invalid sz _ stale hv⟩⟩
  · cases ctx with
    | none => simp [ctest_ctx_check]
    | some c =>
      simp only [ctest_ctx_check, Bool.and_eq_false_imp, decide_eq_true_eq, decide_eq_false_iff_not,
        reduceCtorEq, Option.some.injEq, exists_eq_left', false_or, Bool.and_eq_true]
      constructor
      · intro h
        by_cases h1 : c.magic = MAGIC
        · by_cases h2 : c.c_pass ≥ 0
          · exact Or.inr (Or.inr (by have := h ⟨h1, h2⟩; omega))
          · exact Or.inr (Or.inl (by omega))
        · exact Or.inl h1
      · rintro (h | h | h) ⟨h1, h2⟩
        · exact absurd h1 h
        · omega
        · omega
  · exact isFatal_iff _ _ _ (ctest_invalid sz _ name is_true file_name line_number)
      (fun hv => by
        obtain ⟨c, rfl⟩ := valid_some ctx hv
        rw [ctest_valid sz c err name is_true file_name line_number hv]
        by_cases ht : is_true = 0 <;> simp [ht, Outcome.isFatal])
  · exact isFatal_iff _ _ _ (count_pass_invalid _)
      (fun hv => by
        obtain ⟨c, rfl⟩ := valid_some ctx hv
        rw [count_pass_valid c err hv]; rfl)
  · exact isFatal_iff _ _ _ (count_fail_invalid _)
      (fun hv => by
        obtain ⟨c, rfl⟩ := valid_some ctx hv
        rw [count_fail_valid c err hv]; rfl)
  · exact isFatal_iff _ _ _ (count_test_invalid sz _)
      (fun hv => by
        obtain ⟨c, rfl⟩ := valid_some ctx hv
        rw [count_test_valid sz c err hv]; rfl)
  · exact isFatal_iff _ _ _ (free_invalid sz _ stale)
      (fun hv => by
        obtain ⟨c, rfl⟩ := valid_some ctx hv
        rw [free_valid sz c err stale hv]; rfl)


/-- C10: on a valid context whose fields are longs `ctest_ctx_free` does not
take the fatal path; it appends the line
"Warning: no CTEST unit tests were run." and a newline, once, when the total
pass + fail is zero, and leaves the stream as it was when the total is not
zero. -/
theorem C10_release_warns_on_empty_run (sz : Nat) (c : ctest_ctx) (err : List String)
    (stale : ctest_ctx) (hv : ctest_ctx_check (some c) = true) (hr : ctx_in_range sz c) :
    (ctest_ctx_free sz ⟨some c, err⟩ stale).isFatal = false ∧
    (c.c_pass + c.c_fail = 0 →
      (ctest_ctx_free sz ⟨some c, err⟩ stale).world.stderr
        = err ++ ["Warning: no CTEST unit tests were run.\n"]) ∧
    (c.c_pass + c.c_fail ≠ 0 →
      (ctest_ctx_free sz ⟨some c, err⟩ stale).world.stderr = err) := by
  have hc := (check_some c).1 hv
  obtain ⟨_, ⟨_, hp⟩, ⟨_, hf⟩⟩ := hr
  have hz := toLong_eq_zero_iff sz (c.c_pass + c.c_fail) (by omega) (by omega)
  rw [free_valid sz c err stale hv]
  refine ⟨rfl, fun h => ?_, fun h => ?_⟩
  · simp only [Outcome.world]
    rw [if_pos (hz.2 h)]
    rfl
  · simp only [Outcome.world]
    rw [if_neg (fun h0 => h (hz.1 h0))]

/-- Witness of C10: allocation followed at once by release writes the warning
exactly once and returns. -/
theorem C10_release_warns_on_empty_run_witness :
    ctest_ctx_alloc 8 fresh = Outcome.ret () ⟨some ⟨MAGIC, 0, 0⟩, []⟩ ∧
    ctest_ctx_check (some ⟨MAGIC, 0, 0⟩) = true ∧ ctx_in_range 8 ⟨MAGIC, 0, 0⟩ ∧
    (ctest_ctx_free 8 ⟨some ⟨MAGIC, 0, 0⟩, []⟩ (memset 8 BAD_MEM)).isFatal = false ∧
    (ctest_ctx_free 8 ⟨some ⟨MAGIC, 0, 0⟩, []⟩ (memset 8 BAD_MEM)).world.stderr
      = ["Warning: no CTEST unit tests were run.\n"] :=
  ⟨by decide, by decide, by decide,
    (C10_release_warns_on_empty_run 8 ⟨MAGIC, 0, 0⟩ [] (memset 8 BAD_MEM) (by decide)
      (by decide)).1,
    (C10_release_warns_on_empty_run 8 ⟨MAGIC, 0, 0⟩ [] (memset 8 BAD_MEM) (by decide)
      (by decide)).2.1 rfl⟩


theorem count_true_append (ks js : List Call) :
    count_true (ks ++ js) = count_true ks + count_true js := by
  unfold count_true
  rw [List.filter_append, List.length_append]

theorem count_false_append (ks js : List Call) :
    count_false (ks ++ js) = count_false ks + count_false js := by
  unfold count_false
  rw [List.filter_append, List.length_append]

/-- C11 (as amended): on a valid context a `ctest` call returns, the count it
does not increment is unchanged, and the count it increments grows by 1, so
does not decrease, provided it was below `LONG_MAX`; hence along every sequence
of calls that
keeps both counters within `LONG_MAX`, the counts after any part of the
sequence are at least the counts before it and at most the counts at its end
(each part adds its number of passing calls to the pass count and its number of
failing calls to the fail count). -/
theorem C11_counts_nondecreasing (sz : Nat) (c : ctest_ctx) (err : List String)
    (hv : ctest_ctx_check (some c) = true) :
    (∀ (name : String) (is_true : Int) (file_name : String) (line_number : Nat),
      ∃ c1 err1, ctest sz ⟨some c, err⟩ name is_true file_name line_number
          = Outcome.ret () ⟨some c1, err1⟩ ∧
        (is_true ≠ 0 → c1.c_fail = c.c_fail ∧ c.c_fail ≤ c1.c_fail ∧
          (c.c_pass < LONG_MAX sz → c1.c_pass = c.c_pass + 1 ∧ c.c_pass ≤ c1.c_pass)) ∧
        (is_true = 0 → c1.c_pass = c.c_pass ∧ c.c_pass ≤ c1.c_pass ∧
          (c.c_fail < LONG_MAX sz → c1.c_fail = c.c_fail + 1 ∧ c.c_fail ≤ c1.c_fail))) ∧
    (∀ ks js : List Call,
      c.c_pass + (count_true (ks ++ js) : Int) ≤ LONG_MAX sz →
      c.c_fail + (count_false (ks ++ js) : Int) ≤ LONG_MAX sz →
      ∃ c1 err1 c2 err2,
        run_calls sz ks ⟨some c, err⟩ = Outcome.ret () ⟨some c1, err1⟩ ∧
        run_calls sz js ⟨some c1, err1⟩ = Outcome.ret () ⟨some c2, err2⟩ ∧
        run_calls sz (ks ++ js) ⟨some c, err⟩ = Outcome.ret () ⟨some c2, err2⟩ ∧
        c.c_pass ≤ c1.c_pass ∧ c1.c_pass ≤ c2.c_pass ∧
        c.c_fail ≤ c1.c_fail ∧ c1.c_fail ≤ c2.c_fail ∧
        c1.c_pass = c.c_pass + (count_true ks : Int) ∧
        c1.c_fail = c.c_fail + (count_false ks : Int) ∧
        c2.c_pass = c1.c_pass + (count_true js : Int) ∧
        c2.c_fail = c1.c_fail + (count_false js : Int)) := by
  have hc := (check_some c).1 hv
  constructor
  · intro name is_true file_name line_number
    rw [ctest_valid sz c err name is_true file_name line_number hv]
    by_cases ht : is_true = 0
    · rw [if_neg (by simpa using ht)]
      refine ⟨_, _, rfl, fun h => absurd ht h, fun _ => ⟨rfl, le_refl _, fun hlt => ?_⟩⟩
      simp only []
      rw [toLong_of_nonneg sz _ (by omega) (by omega)]
      exact ⟨rfl, by omega⟩
    · rw [if_pos ht]
      refine ⟨_, _, rfl, fun _ => ⟨rfl, le_refl _, fun hlt => ?_⟩, fun h => absurd h ht⟩
      simp only []
      rw [toLong_of_nonneg sz _ (by omega) (by omega)]
      exact ⟨rfl, by omega⟩
  · intro ks js hp hf
    rw [count_true_append] at hp
    rw [count_false_append] at hf
    push_cast at hp hf
    have h1 := run_calls_in_range sz ks c err hv (by omega) (by omega)
    have hv1 : ctest_ctx_check
        (some ⟨c.magic, c.c_pass + count_true ks, c.c_fail + count_false ks⟩) = true :=
      (check_some _).2 ⟨hc.1, by simp only []; omega, by simp only []; omega⟩
    have h2 := run_calls_in_range sz js
      ⟨c.magic, c.c_pass + count_true ks, c.c_fail + count_false ks⟩ (err ++ failure_lines ks)
      hv1 (by simp only []; omega) (by simp only []; omega)
    refine ⟨_, _, _, _, h1, h2, ?_, ?_, ?_, ?_, ?_, rfl, rfl, rfl, rfl⟩
    · rw [run_calls_append, h1]
      exact h2
    all_goals simp only []; omega

/-- Witness of C11: a context with counts 3 and 2, 8-byte long. -/
theorem C11_counts_nondecreasing_witness :
    ctest_ctx_check (some ⟨MAGIC, 3, 2⟩) = true ∧
    ∃ c1 err1, ctest 8 ⟨some ⟨MAGIC, 3, 2⟩, []⟩ "a" 1 "t.c" 7
        = Outcome.ret () ⟨some c1, err1⟩ ∧
      ((1 : Int) ≠ 0 → c1.c_fail = 2 ∧ (2 : Int) ≤ c1.c_fail ∧
        ((3 : Int) < LONG_MAX 8 → c1.c_pass = 3 + 1 ∧ (3 : Int) ≤ c1.c_pass)) ∧
      ((1 : Int) = 0 → c1.c_pass = 3 ∧ (3 : Int) ≤ c1.c_pass ∧
        ((2 : Int) < LONG_MAX 8 → c1.c_fail = 2 + 1 ∧ (2 : Int) ≤ c1.c_fail)) :=
  ⟨by decide, (C11_counts_nondecreasing 8 ⟨MAGIC, 3, 2⟩ [] (by decide)).1 "a" 1 "t.c" 7⟩

/-- C11 fails as stated, 4-byte long: 2147483647 passing calls on a new context
leave a valid context with pass count 2147483647; one more passing call returns
and leaves pass count -2147483648, which is less than the count before it. -/
theorem C11_counterexample :
    run_calls 4 (calls_then 2147483647 []) ⟨some ⟨MAGIC, 0, 0⟩, []⟩
        = Outcome.ret () ⟨some ⟨MAGIC, 2147483647, 0⟩, []⟩ ∧
      ctest_ctx_check (some ⟨MAGIC, 2147483647, 0⟩) = true ∧
      ctest 4 ⟨some ⟨MAGIC, 2147483647, 0⟩, []⟩ "a" 1 "t.c" 7
        = Outcome.ret () ⟨some ⟨MAGIC, -2147483648, 0⟩, []⟩ ∧
      ¬ ((2147483647 : Int) ≤ -2147483648) := by
  refine ⟨?_, by decide, by decide, by decide⟩
  rw [run_calls_then 4 2147483647 [] [] (by decide)]
  decide

/-- C12: on a valid context `ctest_count_pass`, `ctest_count_fail` and
`ctest_count_test` return and leave the state as it was (every field of the
context and the diagnostic stream), so a second call right after the first
returns the same value. -/
theorem C12_accessors_are_pure (sz : Nat) (c : ctest_ctx) (err : List String)
    (hv : ctest_ctx_check (some c) = true) :
    ∃ p f t,
      ctest_count_pass ⟨some c, err⟩ = Outcome.ret p ⟨some c, err⟩ ∧
      ctest_count_pass (ctest_count_pass ⟨some c, err⟩).world = Outcome.ret p ⟨some c, err⟩ ∧
      ctest_count_fail ⟨some c, err⟩ = Outcome.ret f ⟨some c, err⟩ ∧
      ctest_count_fail (ctest_count_fail ⟨some c, err⟩).world = Outcome.ret f ⟨some c, err⟩ ∧
      ctest_count_test sz ⟨some c, err⟩ = Outcome.ret t ⟨some c, err⟩ ∧
      ctest_count_test sz (ctest_count_test sz ⟨some c, err⟩).world
        = Outcome.ret t ⟨some c, err⟩ := by
  have h1 := count_pass_valid c err hv
  have h2 := count_fail_valid c err hv
  have h3 := count_test_valid sz c err hv
  refine ⟨_, _, _, h1, ?_, h2, ?_, h3, ?_⟩
  · rw [h1]; exact h1
  · rw [h2]; exact h2
  · rw [h3]; exact h3

/-- Witness of C12: a context with counts 3 and 2 and one line on the stream. -/
theorem C12_accessors_are_pure_witness :
    ctest_ctx_check (some ⟨MAGIC, 3, 2⟩) = true ∧
    ∃ p f t,
      ctest_count_pass ⟨some ⟨MAGIC, 3, 2⟩, ["x"]⟩ = Outcome.ret p ⟨some ⟨MAGIC, 3, 2⟩, ["x"]⟩ ∧
      ctest_count_pass (ctest_count_pass ⟨some ⟨MAGIC, 3, 2⟩, ["x"]⟩).world
        = Outcome.ret p ⟨some ⟨MAGIC, 3, 2⟩, ["x"]⟩ ∧
      ctest_count_fail ⟨some ⟨MAGIC, 3, 2⟩, ["x"]⟩ = Outcome.ret f ⟨some ⟨MAGIC, 3, 2⟩, ["x"]⟩ ∧
      ctest_count_fail (ctest_count_fail ⟨some ⟨MAGIC, 3, 2⟩, ["x"]⟩).world
        = Outcome.ret f ⟨some ⟨MAGIC, 3, 2⟩, ["x"]⟩ ∧
      ctest_count_test 8 ⟨some ⟨MAGIC, 3, 2⟩, ["x"]⟩
        = Outcome.ret t ⟨some ⟨MAGIC, 3, 2⟩, ["x"]⟩ ∧
      ctest_count_test 8 (ctest_count_test 8 ⟨some ⟨MAGIC, 3, 2⟩, ["x"]⟩).world
        = Outcome.ret t ⟨some ⟨MAGIC, 3, 2⟩, ["x"]⟩ :=
  ⟨by decide, C12_accessors_are_pure 8 ⟨MAGIC, 3, 2⟩ ["x"] (by decide)⟩

theorem LONG_MIN_neg (sz : Nat) : LONG_MIN sz < 0 := by
  unfold LONG_MIN
  have hpos : (0 : Int) < 2 ^ (8 * sz - 1) := by positivity
  omega

theorem toLong_succ_max (sz : Nat) (hs : 0 < sz) : toLong sz (LONG_MAX sz + 1) = LONG_MIN sz := by
  have hn := LONG_MAX_nonneg sz
  rw [toLong_wrap sz hs _ (by omega) (by omega)]
  have hm := pow_bits sz hs
  unfold LONG_MAX LONG_MIN
  omega

theorem size_pos_of_valid (sz : Nat) (c : ctest_ctx)
    (hv : ctest_ctx_check (some c) = true) (hr : ctx_in_range sz c) : 0 < sz := by
  have hc := (check_some c).1 hv
  obtain ⟨⟨_, hm⟩, _, _⟩ := hr
  rcases Nat.eq_zero_or_pos sz with hz | hp
  · subst hz
    rw [hc.1] at hm
    exact absurd hm (by decide)
  · exact hp

/-- C13 (as amended): every context reached from `ctest_ctx_alloc` by a
sequence of `ctest` calls that keeps both counters within `LONG_MAX` is valid:
its tag is `MAGIC`, its pass count and fail count are non-negative, and the
total `ctest_count_test` returns is pass + fail when the number of calls does
not exceed `LONG_MAX`.  A `ctest` call on a valid context leaves a valid context
whenever the counter it increments is below `LONG_MAX`. -/
theorem C13_reachable_contexts_valid (sz : Nat) (w : World) (ks : List Call) (h4 : 4 ≤ sz)
    (hp : (count_true ks : Int) ≤ LONG_MAX sz) (hf : (count_false ks : Int) ≤ LONG_MAX sz) :
    (∃ w0 c1 err1, ctest_ctx_alloc sz w = Outcome.ret () w0 ∧
      run_calls sz ks w0 = Outcome.ret () ⟨some c1, err1⟩ ∧
      ctest_ctx_check (some c1) = true ∧
      c1.magic = MAGIC ∧ 0 ≤ c1.c_pass ∧ 0 ≤ c1.c_fail ∧
      ((ks.length : Int) ≤ LONG_MAX sz →
        ctest_count_test sz ⟨some c1, err1⟩
          = Outcome.ret (c1.c_pass + c1.c_fail) ⟨some c1, err1⟩)) ∧
    (∀ (c : ctest_ctx) (err : List String) (k : Call), ctest_ctx_check (some c) = true →
      (k.is_true ≠ 0 → c.c_pass < LONG_MAX sz) → (k.is_true = 0 → c.c_fail < LONG_MAX sz) →
      ∃ c2 err2, ctest sz ⟨some c, err⟩ k.name k.is_true k.file_name k.line_number
          = Outcome.ret () ⟨some c2, err2⟩ ∧
        ctest_ctx_check (some c2) = true) := by
  constructor
  · have hr := run_calls_in_range sz ks ⟨MAGIC, 0, 0⟩ w.stderr check_fresh
      (by simpa using hp) (by simpa using hf)
    simp only [zero_add] at hr
    have hv : ctest_ctx_check
        (some ⟨MAGIC, (count_true ks : Int), (count_false ks : Int)⟩) = true :=
      (check_some _).2 ⟨rfl, by simp, by simp⟩
    have hlen : ((count_true ks : Int) + (count_false ks : Int)) = (ks.length : Int) := by
      exact_mod_cast count_true_add_false ks
    refine ⟨_, _, _, alloc_eq sz h4 w, hr, hv, rfl, by simp, by simp, fun hl => ?_⟩
    rw [count_test_valid sz _ _ hv]
    simp only []
    rw [toLong_of_nonneg sz _ (by rw [hlen]; simp) (by rw [hlen]; exact hl)]
  · intro c err k hv h1 h0
    have hc := (check_some c).1 hv
    by_cases ht : k.is_true = 0
    · refine ⟨_, _, ctest_false_step sz c err k hv ht (h0 ht), ?_⟩
      exact (check_some _).2 ⟨hc.1, hc.2.1, by simp only []; omega⟩
    · refine ⟨_, _, ctest_true_step sz c err k hv ht (h1 ht), ?_⟩
      exact (check_some _).2 ⟨hc.1, by simp only []; omega, hc.2.2⟩

/-- Witness of C13: scenario 4 on a new context, 8-byte long. -/
theorem C13_reachable_contexts_valid_witness :
    4 ≤ 8 ∧ (count_true scenario4 : Int) ≤ LONG_MAX 8 ∧
    (count_false scenario4 : Int) ≤ LONG_MAX 8 ∧
    ∃ w0 c1 err1, ctest_ctx_alloc 8 fresh = Outcome.ret () w0 ∧
      run_calls 8 scenario4 w0 = Outcome.ret () ⟨some c1, err1⟩ ∧
      ctest_ctx_check (some c1) = true ∧
      c1.magic = MAGIC ∧ 0 ≤ c1.c_pass ∧ 0 ≤ c1.c_fail ∧
      ((scenario4.length : Int) ≤ LONG_MAX 8 →
        ctest_count_test 8 ⟨some c1, err1⟩
          = Outcome.ret (c1.c_pass + c1.c_fail) ⟨some c1, err1⟩) :=
  ⟨by decide, by decide, by decide,
    (C13_reachable_contexts_valid 8 fresh scenario4 (by decide) (by decide) (by decide)).1⟩

/-- C13 fails as stated, 4-byte long: the context reached from
`ctest_ctx_alloc` by 2147483648 passing calls, each of which returns, has pass
count -2147483648 and fails the integrity check. -/
theorem C13_counterexample :
    ctest_ctx_alloc 4 fresh = Outcome.ret () ⟨some ⟨MAGIC, 0, 0⟩, []⟩ ∧
      run_calls 4 (calls_then 2147483647 [pass_call]) ⟨some ⟨MAGIC, 0, 0⟩, []⟩
        = Outcome.ret () ⟨some ⟨MAGIC, -2147483648, 0⟩, []⟩ ∧
      ctest_ctx_check (some ⟨MAGIC, -2147483648, 0⟩) = false ∧
      ¬ ((0 : Int) ≤ -2147483648) := by
  refine ⟨by decide, ?_, by decide, by decide⟩
  rw [run_calls_then 4 2147483647 [pass_call] [] (by decide)]
  decide

/-- C15: with long arithmetic wrapping modulo 2^(8*sz), a `ctest` call on a
valid context whose fields are longs returns, and leaves a valid context
exactly when the counter it increments is below `LONG_MAX`; at `LONG_MAX` that
counter becomes `LONG_MIN`, which is negative, and afterwards `ctest`, the three
accessors and `ctest_ctx_free` all take the fatal path on that context. -/
theorem C15_wrap_at_max (sz : Nat) (c : ctest_ctx) (err : List String) (name : String)
    (is_true : Int) (file_name : String) (line_number : Nat)
    (hv : ctest_ctx_check (some c) = true) (hr : ctx_in_range sz c) :
    ∃ c1 err1, ctest sz ⟨some c, err⟩ name is_true file_name line_number
        = Outcome.ret () ⟨some c1, err1⟩ ∧
      (ctest_ctx_check (some c1) = true ↔
        (if is_true ≠ 0 then c.c_pass else c.c_fail) < LONG_MAX sz) ∧
      ((if is_true ≠ 0 then c.c_pass else c.c_fail) = LONG_MAX sz →
        (if is_true ≠ 0 then c1.c_pass else c1.c_fail) = LONG_MIN sz ∧
        LONG_MIN sz < 0 ∧
        ∀ (e : List String) (name1 : String) (is_true1 : Int) (file_name1 : String)
          (line_number1 : Nat) (stale : ctest_ctx),
          ctest sz ⟨some c1, e⟩ name1 is_true1 file_name1 line_number1
            = Outcome.fatal ⟨some c1, e⟩ ∧
          ctest_count_pass ⟨some c1, e⟩ = Outcome.fatal ⟨some c1, e⟩ ∧
          ctest_count_fail ⟨some c1, e⟩ = Outcome.fatal ⟨some c1, e⟩ ∧
          ctest_count_test sz ⟨some c1, e⟩ = Outcome.fatal ⟨some c1, e⟩ ∧
          ctest_ctx_free sz ⟨some c1, e⟩ stale = Outcome.fatal ⟨some c1, e⟩) := by
  have hc := (check_some c).1 hv
  have hs := size_pos_of_valid sz c hv hr
  obtain ⟨_, ⟨_, hp⟩, ⟨_, hf⟩⟩ := hr
  have hneg := LONG_MIN_neg sz
  have fatal_all : ∀ c1 : ctest_ctx, ctest_ctx_check (some c1) = false →
      ∀ (e : List String) (name1 : String) (is_true1 : Int) (file_name1 : String)
        (line_number1 : Nat) (stale : ctest_ctx),
        ctest sz ⟨some c1, e⟩ name1 is_true1 file_name1 line_number1
          = Outcome.fatal ⟨some c1, e⟩ ∧
        ctest_count_pass ⟨some c1, e⟩ = Outcome.fatal ⟨some c1, e⟩ ∧
        ctest_count_fail ⟨some c1, e⟩ = Outcome.fatal ⟨some c1, e⟩ ∧
        ctest_count_test sz ⟨some c1, e⟩ = Outcome.fatal ⟨some c1, e⟩ ∧
        ctest_ctx_free sz ⟨some c1, e⟩ stale = Outcome.fatal ⟨some c1, e⟩ :=
    fun c1 h e name1 is_true1 file_name1 line_number1 stale =>
      ⟨ctest_invalid sz ⟨_, e⟩ name1 is_true1 file_name1 line_number1 h,
        count_pass_invalid ⟨_, e⟩ h, count_fail_invalid ⟨_, e⟩ h,
        count_test_invalid sz ⟨_, e⟩ h, free_invalid sz ⟨_, e⟩ stale h⟩
  rw [ctest_valid sz c err name is_true file_name line_number hv]
  by_cases ht : is_true = 0
  · rw [if_neg (by simpa using ht)]
    simp only [ne_eq, ht, not_true_eq_false, if_false]
    refine ⟨_, _, rfl, ?_, ?_⟩
    · rw [check_some]
      simp only []
      by_cases hlt : c.c_fail < LONG_MAX sz
      · rw [toLong_of_nonneg sz _ (by omega) (by omega)]
        exact ⟨fun _ => hlt, fun _ => ⟨hc.1, hc.2.1, by omega⟩⟩
      · have he : c.c_fail = LONG_MAX sz := by omega
        rw [he, toLong_succ_max sz hs]
        exact ⟨fun h => by omega, fun h => absurd h (lt_irrefl _)⟩
    · intro he
      have hw : toLong sz (c.c_fail + 1) = LONG_MIN sz := by rw [he, toLong_succ_max sz hs]
      refine ⟨hw, hneg, fatal_all _ ?_⟩
      rw [Bool.eq_false_iff]
      intro h
      have := ((check_some _).1 h).2.2
      simp only [hw] at this
      omega
  · rw [if_pos ht]
    simp only [ne_eq, ht, not_false_eq_true, if_true]
    refine ⟨_, _, rfl, ?_, ?_⟩
    · rw [check_some]
      simp only []
      by_cases hlt : c.c_pass < LONG_MAX sz
      · rw [toLong_of_nonneg sz _ (by omega) (by omega)]
        exact ⟨fun _ => hlt, fun _ => ⟨hc.1, by omega, hc.2.2⟩⟩
      · have he : c.c_pass = LONG_MAX sz := by omega
        rw [he, toLong_succ_max sz hs]
        exact ⟨fun h => by omega, fun h => absurd h (lt_irrefl _)⟩
    · intro he
      have hw : toLong sz (c.c_pass + 1) = LONG_MIN sz := by rw [he, toLong_succ_max sz hs]
      refine ⟨hw, hneg, fatal_all _ ?_⟩
      rw [Bool.eq_false_iff]
      intro h
      have := ((check_some _).1 h).2.1
      simp only [hw] at this
      omega

/-- Witness of C15: pass count at the maximum of a 4-byte long, passing call. -/
theorem C15_wrap_at_max_witness :
    ctest_ctx_check (some ⟨MAGIC, 2147483647, 0⟩) = true ∧
    ctx_in_range 4 ⟨MAGIC, 2147483647, 0⟩ ∧
    ∃ c1 err1, ctest 4 ⟨some ⟨MAGIC, 2147483647, 0⟩, []⟩ "a" 1 "t.c" 7
        = Outcome.ret () ⟨some c1, err1⟩ ∧
      (ctest_ctx_check (some c1) = true ↔
        (if (1 : Int) ≠ 0 then (2147483647 : Int) else 0) < LONG_MAX 4) ∧
      ((if (1 : Int) ≠ 0 then (2147483647 : Int) else 0) = LONG_MAX 4 →
        (if (1 : Int) ≠ 0 then c1.c_pass else c1.c_fail) = LONG_MIN 4 ∧
        LONG_MIN 4 < 0 ∧
        ∀ (e : List String) (name1 : String) (is_true1 : Int) (file_name1 : String)
          (line_number1 : Nat) (stale : ctest_ctx),
          ctest 4 ⟨some c1, e⟩ name1 is_true1 file_name1 line_number1
            = Outcome.fatal ⟨some c1, e⟩ ∧
          ctest_count_pass ⟨some c1, e⟩ = Outcome.fatal ⟨some c1, e⟩ ∧
          ctest_count_fail ⟨some c1, e⟩ = Outcome.fatal ⟨some c1, e⟩ ∧
          ctest_count_test 4 ⟨some c1, e⟩ = Outcome.fatal ⟨some c1, e⟩ ∧
          ctest_ctx_free 4 ⟨some c1, e⟩ stale = Outcome.fatal ⟨some c1, e⟩) :=
  ⟨by decide, by decide,
    C15_wrap_at_max 4 ⟨MAGIC, 2147483647, 0⟩ [] "a" 1 "t.c" 7 (by decide) (by decide)⟩

/-- C14: the fill byte `BAD_MEM` is 0x95 = 149: it is non-zero, has exactly four
bits set and four clear, is prime as an unsigned byte, reads as -107 as a
signed byte, with 107 prime, and has the odd high-order nibble 9; and a value
is non-zero and meets the conditions of the source comment exactly when it is
`BAD_MEM`. -/
theorem C14_fill_byte_unique :
    BAD_MEM = 0x95 ∧ BAD_MEM = 149 ∧ BAD_MEM ≠ 0 ∧
    bits_set BAD_MEM = 4 ∧ bits_clear BAD_MEM = 4 ∧
    Nat.Prime BAD_MEM ∧
    signed_byte BAD_MEM = -107 ∧ signed_byte BAD_MEM < 0 ∧ Nat.Prime 107 ∧
    high_nibble BAD_MEM = 9 ∧ high_nibble BAD_MEM % 2 = 1 ∧
    ∀ v : Nat,
      (v ≠ 0 ∧ v < 256 ∧ bits_set v = 4 ∧ bits_clear v = 4 ∧ Nat.Prime v ∧
        signed_byte v < 0 ∧ Nat.Prime (-(signed_byte v)).toNat ∧ high_nibble v % 2 = 1)
      ↔ v = BAD_MEM := by
  have hb := fill_conditions_BAD_MEM
  refine ⟨rfl, rfl, by decide, by decide, by decide, hb.2.2.2.1, by decide, by decide,
    by norm_num, by decide, by decide, fun v => ⟨fun h => fill_unique v h.2, fun h => ?_⟩⟩
  subst h
  exact ⟨by decide, hb⟩

/-- C17: the four low-order bytes of `MAGIC`, least significant first, are
0x43, 0x54, 0x73, 0x74, the ASCII codes of 'C', 'T', 's', 't' (the rest of an
8-byte long is zero), and `MAGIC` differs from the long whose every byte is
0x95, for 4-byte and for 8-byte longs. -/
theorem C17_magic_bytes :
    MAGIC = 0x74735443 ∧
    bytesOfLong 4 MAGIC = [0x43, 0x54, 0x73, 0x74] ∧
    bytesOfLong 4 MAGIC = ['C'.toNat, 'T'.toNat, 's'.toNat, 't'.toNat] ∧
    bytesOfLong 8 MAGIC = ['C'.toNat, 'T'.toNat, 's'.toNat, 't'.toNat, 0, 0, 0, 0] ∧
    longOfBytes ['C'.toNat, 'T'.toNat, 's'.toNat, 't'.toNat] = MAGIC ∧
    longOfBytes (List.replicate 4 0x95) = -1785358955 ∧
    longOfBytes (List.replicate 8 0x95) = -7668058320836127339 ∧
    MAGIC ≠ longOfBytes (List.replicate 4 0x95) ∧
    MAGIC ≠ longOfBytes (List.replicate 8 0x95) ∧
    MAGIC ≠ (memset 4 BAD_MEM).magic ∧ MAGIC ≠ (memset 8 BAD_MEM).magic := by
  decide

theorem ctest_same_truth (sz : Nat) (w1 w2 : World) (a b : Call) (hw : w1.ctx = w2.ctx)
    (h : same_truth a b) :
    (ctest sz w1 a.name a.is_true a.file_name a.line_number).isFatal
        = (ctest sz w2 b.name b.is_true b.file_name b.line_number).isFatal ∧
      (ctest sz w1 a.name a.is_true a.file_name a.line_number).world.ctx
        = (ctest sz w2 b.name b.is_true b.file_name b.line_number).world.ctx := by
  obtain ⟨ctx, e1⟩ := w1
  obtain ⟨ctx2, e2⟩ := w2
  simp only at hw
  subst hw
  cases hv : ctest_ctx_check ctx with
  | false =>
    rw [ctest_invalid sz ⟨ctx, e1⟩ _ _ _ _ hv, ctest_invalid sz ⟨ctx, e2⟩ _ _ _ _ hv]
    exact ⟨rfl, rfl⟩
  | true =>
    obtain ⟨c, rfl⟩ := valid_some ctx hv
    rw [ctest_valid sz c e1 _ _ _ _ hv, ctest_valid sz c e2 _ _ _ _ hv]
    unfold same_truth at h
    by_cases ha : a.is_true = 0
    · have hb : b.is_true = 0 := h.1 ha
      rw [if_neg (by simpa using ha), if_neg (by simpa using hb)]
      exact ⟨rfl, rfl⟩
    · have hb : b.is_true ≠ 0 := fun hb => ha (h.2 hb)
      rw [if_pos ha, if_pos hb]
      exact ⟨rfl, rfl⟩

theorem run_calls_same_truth (sz : Nat) (ks js : List Call)
    (h : List.Forall₂ same_truth ks js) :
    ∀ w1 w2 : World, w1.ctx = w2.ctx →
      (run_calls sz ks w1).isFatal = (run_calls sz js w2).isFatal ∧
      (run_calls sz ks w1).world.ctx = (run_calls sz js w2).world.ctx := by
  induction h with
  | nil => intro w1 w2 hw; exact ⟨rfl, hw⟩
  | @cons a b ks js hab _ ih =>
    intro w1 w2 hw
    have hs := ctest_same_truth sz w1 w2 a b hw hab
    simp only [run_calls]
    cases h1 : ctest sz w1 a.name a.is_true a.file_name a.line_number with
    | ret v1 u1 =>
      cases h2 : ctest sz w2 b.name b.is_true b.file_name b.line_number with
      | ret v2 u2 =>
        rw [h1, h2] at hs
        exact ih u1 u2 hs.2
      | fatal u2 =>
        rw [h1, h2] at hs
        exact absurd hs.1 (by simp [Outcome.isFatal])
    | fatal u1 =>
      cases h2 : ctest sz w2 b.name b.is_true b.file_name b.line_number with
      | ret v2 u2 =>
        rw [h1, h2] at hs
        exact absurd hs.1 (by simp [Outcome.isFatal])
      | fatal u2 =>
        rw [h1, h2] at hs
        exact hs

theorem count_true_same_truth (ks js : List Call) (h : List.Forall₂ same_truth ks js) :
    count_true ks = count_true js ∧ count_false ks = count_false js := by
  induction h with
  | nil => exact ⟨rfl, rfl⟩
  | @cons a b ks js hab _ ih =>
    rw [count_true_cons, count_true_cons, count_false_cons, count_false_cons, ih.1, ih.2]
    unfold same_truth at hab
    by_cases ha : a.is_true = 0
    · simp [ha, hab.1 ha]
    · have hb : b.is_true ≠ 0 := fun hb => ha (hab.2 hb)
      simp [ha, hb]

theorem accessors_depend_on_ctx (sz : Nat) (w1 w2 : World) (hw : w1.ctx = w2.ctx) :
    (ctest_count_pass w1).value = (ctest_count_pass w2).value ∧
    (ctest_count_fail w1).value = (ctest_count_fail w2).value ∧
    (ctest_count_test sz w1).value = (ctest_count_test sz w2).value := by
  obtain ⟨ctx, e1⟩ := w1
  obtain ⟨ctx2, e2⟩ := w2
  simp only at hw
  subst hw
  cases hv : ctest_ctx_check ctx with
  | false =>
    rw [count_pass_invalid ⟨ctx, e1⟩ hv, count_pass_invalid ⟨ctx, e2⟩ hv,
      count_fail_invalid ⟨ctx, e1⟩ hv, count_fail_invalid ⟨ctx, e2⟩ hv,
      count_test_invalid sz ⟨ctx, e1⟩ hv, count_test_invalid sz ⟨ctx, e2⟩ hv]
    exact ⟨rfl, rfl, rfl⟩
  | true =>
    obtain ⟨c, rfl⟩ := valid_some ctx hv
    rw [count_pass_valid c e1 hv, count_pass_valid c e2 hv,
      count_fail_valid c e1 hv, count_fail_valid c e2 hv,
      count_test_valid sz c e1 hv, count_test_valid sz c e2 hv]
    exact ⟨rfl, rfl, rfl⟩

/-- C16: the counters do not depend on the diagnostic arguments.  For every
valid context and every two sequences of `ctest` calls that agree, position by
position, on whether `is_true` is zero, the two runs either both return or both
abort, they leave the same context (tag, pass count, fail count), and
`ctest_count_pass`, `ctest_count_fail` and `ctest_count_test` give the same
result after either; while the counters stay within `LONG_MAX` all calls
return and the three accessors return values after both runs. -/
theorem C16_counts_ignore_diagnostics (sz : Nat) (c : ctest_ctx) (err : List String)
    (ks js : List Call) (hv : ctest_ctx_check (some c) = true)
    (h : List.Forall₂ same_truth ks js) :
    (run_calls sz ks ⟨some c, err⟩).isFatal = (run_calls sz js ⟨some c, err⟩).isFatal ∧
    (run_calls sz ks ⟨some c, err⟩).world.ctx = (run_calls sz js ⟨some c, err⟩).world.ctx ∧
    (ctest_count_pass (run_calls sz ks ⟨some c, err⟩).world).value
      = (ctest_count_pass (run_calls sz js ⟨some c, err⟩).world).value ∧
    (ctest_count_fail (run_calls sz ks ⟨some c, err⟩).world).value
      = (ctest_count_fail (run_calls sz js ⟨some c, err⟩).world).value ∧
    (ctest_count_test sz (run_calls sz ks ⟨some c, err⟩).world).value
      = (ctest_count_test sz (run_calls sz js ⟨some c, err⟩).world).value ∧
    (c.c_pass + (count_true ks : Int) ≤ LONG_MAX sz →
      c.c_fail + (count_false ks : Int) ≤ LONG_MAX sz →
      (run_calls sz ks ⟨some c, err⟩).isFatal = false ∧
      (run_calls sz js ⟨some c, err⟩).isFatal = false ∧
      (ctest_count_pass (run_calls sz js ⟨some c, err⟩).world).value
        = some (c.c_pass + (count_true ks : Int)) ∧
      (ctest_count_fail (run_calls sz js ⟨some c, err⟩).world).value
        = some (c.c_fail + (count_false ks : Int)) ∧
      (ctest_count_test sz (run_calls sz js ⟨some c, err⟩).world).value
        = some (toLong sz (c.c_pass + (count_true ks : Int)
            + (c.c_fail + (count_false ks : Int))))) := by
  have hrun := run_calls_same_truth sz ks js h ⟨some c, err⟩ ⟨some c, err⟩ rfl
  have hacc := accessors_depend_on_ctx sz _ _ hrun.2
  refine ⟨hrun.1, hrun.2, hacc.1, hacc.2.1, hacc.2.2, fun hp hf => ?_⟩
  have hc := (check_some c).1 hv
  have hcnt := count_true_same_truth ks js h
  have hk := run_calls_in_range sz ks c err hv hp hf
  have hj := run_calls_in_range sz js c err hv (by rw [← hcnt.1]; exact hp)
    (by rw [← hcnt.2]; exact hf)
  have hv1 : ctest_ctx_check
      (some ⟨c.magic, c.c_pass + count_true js, c.c_fail + count_false js⟩) = true :=
    (check_some _).2 ⟨hc.1, by simp only []; omega, by simp only []; omega⟩
  rw [hk, hj]
  simp only [Outcome.world]
  rw [count_pass_valid _ _ hv1, count_fail_valid _ _ hv1, count_test_valid sz _ _ hv1,
    hcnt.1, hcnt.2]
  exact ⟨rfl, rfl, rfl, rfl, rfl⟩

/-- Witness of C16: a passing and a failing call against two calls with other
names, files, lines and another non-zero `is_true`. -/
theorem C16_counts_ignore_diagnostics_witness :
    ctest_ctx_check (some ⟨MAGIC, 0, 0⟩) = true ∧
    List.Forall₂ same_truth [pass_call, fail_call] [other_pass, other_fail] ∧
    (ctest_count_pass (run_calls 8 [pass_call, fail_call] ⟨some ⟨MAGIC, 0, 0⟩, []⟩).world).value
      = (ctest_count_pass
          (run_calls 8 [other_pass, other_fail] ⟨some ⟨MAGIC, 0, 0⟩, []⟩).world).value ∧
    (ctest_count_pass
        (run_calls 8 [other_pass, other_fail] ⟨some ⟨MAGIC, 0, 0⟩, []⟩).world).value
      = some 1 :=
  ⟨by decide,
    List.Forall₂.cons (by decide) (List.Forall₂.cons (by decide) List.Forall₂.nil),
    (C16_counts_ignore_diagnostics 8 ⟨MAGIC, 0, 0⟩ [] [pass_call, fail_call]
      [other_pass, other_fail] (by decide)
      (List.Forall₂.cons (by decide) (List.Forall₂.cons (by decide) List.Forall₂.nil))).2.2.1,
    by decide⟩

end CTest
